import Mathlib

/-!
Verification of the liveness challenge engine (johnpaulpatigas/liveness).

The definitions below are a shallow embedding of `src/engine/utils.js` and
`src/engine/LivenessEngine.js`.  JavaScript numbers are modelled as real
numbers; landmark arrays as total functions from indices to 3D points;
nullable values as `Option`; the engine's asynchronous callbacks as an
explicit event/step relation producing a list of emitted callback
invocations.
-/

namespace Liveness

/-! ### Metric functions (`src/engine/utils.js`) -/

/-- A MediaPipe face-mesh landmark: normalized image coordinates plus
relative depth. -/
structure Point3 where
  x : ℝ
  y : ℝ
  z : ℝ

/-- A landmark set, indexed by face-mesh topology index. -/
abbrev Landmarks := ℕ → Point3

/-- `euclideanDistance` from utils.js. -/
noncomputable def euclideanDistance (p1 p2 : Point3) : ℝ :=
  Real.sqrt ((p1.x - p2.x) ^ 2 + (p1.y - p2.y) ^ 2 + (p1.z - p2.z) ^ 2)

inductive EyeSide
  | left
  | right

/-- `EYE_INDICES` from utils.js. -/
def eyeIndices : EyeSide → List ℕ
  | .left => [362, 385, 387, 263, 373, 380]
  | .right => [33, 160, 158, 133, 153, 144]

/-- `calculateEAR` from utils.js. -/
noncomputable def calculateEAR (landmarks : Landmarks) (side : EyeSide) : ℝ :=
  let indices := eyeIndices side
  let p1 := landmarks (indices.getD 0 0)
  let p2 := landmarks (indices.getD 1 0)
  let p3 := landmarks (indices.getD 2 0)
  let p4 := landmarks (indices.getD 3 0)
  let p5 := landmarks (indices.getD 4 0)
  let p6 := landmarks (indices.getD 5 0)
  let verticalDist1 := euclideanDistance p2 p6
  let verticalDist2 := euclideanDistance p3 p5
  let horizontalDist := euclideanDistance p1 p4
  if horizontalDist = 0 then 0
  else (verticalDist1 + verticalDist2) / (2 * horizontalDist)

/-- `calculateHeadTurnV2` from utils.js: cheek indices 234/454, chin 152. -/
noncomputable def calculateHeadTurnV2 (landmarks : Landmarks) : ℝ :=
  let leftCheek := landmarks 234
  let rightCheek := landmarks 454
  let chin := landmarks 152
  let leftDepth := leftCheek.z - chin.z
  let rightDepth := rightCheek.z - chin.z
  let faceWidth := euclideanDistance leftCheek rightCheek
  if faceWidth < 0.1 then 0
  else (rightDepth - leftDepth) / faceWidth

/-- `calculateCosineSimilarity` from utils.js.  Absent (null/undefined)
inputs are modelled by `none`. -/
def calculateCosineSimilarity (vecA vecB : Option (List ℝ)) : ℝ :=
  match vecA, vecB with
  | some a, some b =>
      if a.length ≠ b.length then 0
      else (List.zipWith (· * ·) a b).sum
  | _, _ => 0

/-- Euclidean norm of a vector, as computed by `tensor.norm()` in
`#completeLiveness` (Frobenius norm: square root of the sum of squares). -/
noncomputable def l2norm (v : List ℝ) : ℝ :=
  Real.sqrt (v.map (fun x => x ^ 2)).sum

/-! ### Challenge sequencer (`#generateChallenges`) -/

inductive ChallengeType
  | BLINK
  | TURN_LEFT
  | TURN_RIGHT
  | PROCESSING
deriving DecidableEq

/-- The JS array-destructuring swap on positions `i`, `j` used by the
Fisher–Yates loop in `#generateChallenges`. -/
def swapL (l : List ChallengeType) (i j : ℕ) : List ChallengeType :=
  (l.set i (l.getD j .BLINK)).set j (l.getD i .BLINK)

/-- `#generateChallenges`, with its random draws made explicit: `coin` is
the truth value of the test `Math.random() > 0.5`, and `j2`, `j1` are the
uniform draws `Math.floor(Math.random() * (i + 1))` for `i = 2` and
`i = 1` of the Fisher–Yates loop. -/
def generateChallenges (coin : Bool) (j2 : Fin 3) (j1 : Fin 2) : List ChallengeType :=
  let challenges : List ChallengeType :=
    .BLINK :: (if coin then [.TURN_LEFT, .TURN_RIGHT] else [.TURN_RIGHT, .TURN_LEFT])
  let challenges := swapL challenges 2 (j2 : ℕ)
  let challenges := swapL challenges 1 (j1 : ℕ)
  challenges

/-- The set of random sources driving one call of `#generateChallenges`. -/
abbrev RandSrc := Bool × Fin 3 × Fin 2

/-- Probability, over the uniform random choices of `#generateChallenges`,
of producing exactly the sequence `p`. -/
def permProb (p : List ChallengeType) : ℚ :=
  ((Finset.univ.filter fun r : RandSrc => generateChallenges r.1 r.2.1 r.2.2 = p).card : ℚ) /
    ((Finset.univ : Finset RandSrc).card : ℚ)

/-! ### Engine configuration and state (`LivenessEngine.js`) -/

/-- `DEFAULT_CONFIG` fields; an instance of this structure is the merged
`{...DEFAULT_CONFIG, ...config}` object of the constructor. -/
structure Config where
  blinkEARThreshold : ℝ
  headTurnThreshold : ℝ
  challengeTimeout : ℝ
  targetFPS : ℝ

/-- `DEFAULT_CONFIG` from LivenessEngine.js. -/
def defaultConfig : Config :=
  { blinkEARThreshold := 0.25
    headTurnThreshold := 0.4
    challengeTimeout := 5000
    targetFPS := 30 }

/-- Failure codes produced by the engine itself. -/
inductive FailureCode
  | FACE_NOT_FOUND
  | CHALLENGE_TIMEOUT
  | RECOGNITION_FAILED
deriving DecidableEq

/-- One callback invocation observable by the engine's caller. -/
inductive Emit
  | challengeChanged (c : ChallengeType)
  | progressEmit (progress : ℝ) (rawValue : Option ℝ)
  | successEmit (descriptor : List ℝ)
  | failureEmit (code : FailureCode)
  | clearSurface

/-- Whether an emission is an `onChallengeChanged` invocation. -/
def Emit.isChallengeEvent : Emit → Bool
  | .challengeChanged _ => true
  | _ => false

/-- Whether an emission is an `onSuccess` invocation. -/
def Emit.isSuccess : Emit → Bool
  | .successEmit _ => true
  | _ => false

/-- Whether an emission is an `onFailure` invocation. -/
def Emit.isFailure : Emit → Bool
  | .failureEmit _ => true
  | _ => false

/-- Whether an emission is terminal (success or failure). -/
def Emit.isTerminal : Emit → Bool
  | .successEmit _ => true
  | .failureEmit _ => true
  | _ => false

/-- The sequence of challenge types carried by `onChallengeChanged`
invocations, in emission order. -/
def challengeEventsOf (l : List Emit) : List ChallengeType :=
  l.filterMap fun e =>
    match e with
    | .challengeChanged c => some c
    | _ => none

/-- The engine's mutable private fields. -/
structure EngineState where
  isStopped : Bool
  challenges : List ChallengeType
  currentChallengeIndex : ℕ
  lastChallengeTime : ℝ
  isChallengeProcessing : Bool
  hasDetectedOpenEyes : Bool
  /-- whether a `setTimeout(() => #moveToNextChallenge(), 300)` is in flight -/
  settlePending : Bool
  lastFrameTime : ℝ
  /-- whether `#detectionLoopId` is non-null -/
  loopScheduled : Bool

/-- Field initializers of the `LivenessEngine` class. -/
def initState : EngineState :=
  { isStopped := true
    challenges := []
    currentChallengeIndex := 0
    lastChallengeTime := 0
    isChallengeProcessing := false
    hasDetectedOpenEyes := false
    settlePending := false
    lastFrameTime := 0
    loopScheduled := false }

/-- `this.#challenges[this.#currentChallengeIndex]`; an out-of-range read
(JS `undefined`) is modelled by the `PROCESSING` tag, which matches no
`switch` case, exactly like `undefined`. -/
def currentChallengeOf (st : EngineState) : ChallengeType :=
  st.challenges.getD st.currentChallengeIndex .PROCESSING

/-- The embedding collaborator: the result of
`#recognitionModel.predict` + `data()` on the current frame, `none` when
that pipeline throws. -/
structure Env where
  embedding : Option (List ℝ)

/-- The `tf.tidy` block of `#completeLiveness` (lines 302-308): divide by
the Euclidean norm when it exceeds `1e-6`, otherwise keep the raw
prediction. -/
noncomputable def normalizeEmbedding (v : List ℝ) : List ℝ :=
  if l2norm v > 1e-6 then v.map (fun x => x / l2norm v) else v

/-- `stop()`: set the stopped flag, cancel the animation-frame
registration, clear the render surface. -/
def stopEngine (st : EngineState) : EngineState × List Emit :=
  ({ st with isStopped := true, loopScheduled := false }, [.clearSurface])

/-- `#completeLiveness`: stop, notify `PROCESSING`, then either emit the
(possibly normalized) descriptor or fail with `RECOGNITION_FAILED`
(`#failChallenge` = `stop()` + `onFailure`). -/
noncomputable def completeLiveness (env : Env) (st : EngineState) : EngineState × List Emit :=
  let s := stopEngine st
  match env.embedding with
  | some e =>
      (s.1, s.2 ++ [.challengeChanged .PROCESSING, .successEmit (normalizeEmbedding e)])
  | none =>
      let s2 := stopEngine s.1
      (s2.1, s.2 ++ [.challengeChanged .PROCESSING] ++ s2.2 ++ [.failureEmit .RECOGNITION_FAILED])

/-- `#moveToNextChallenge` (fired by the 300 ms settle timeout). -/
noncomputable def moveToNextChallenge (env : Env) (now : ℝ) (st : EngineState) :
    EngineState × List Emit :=
  let st1 := { st with
    currentChallengeIndex := st.currentChallengeIndex + 1
    hasDetectedOpenEyes := false }
  if st1.currentChallengeIndex ≥ st1.challenges.length then
    completeLiveness env st1
  else
    ({ st1 with lastChallengeTime := now, isChallengeProcessing := false },
     [.challengeChanged (currentChallengeOf st1)])

/-- The `switch (currentChallenge)` body of `#processChallenge`:
returns `(challengePassed, progress, rawValue, hasDetectedOpenEyes)`.
`OPEN_THRESHOLD = 0.3` is the fixed open-eye threshold of the BLINK
case. -/
noncomputable def evalChallenge (cfg : Config) (hasOpen : Bool) (c : ChallengeType)
    (lm : Landmarks) : Bool × ℝ × Option ℝ × Bool :=
  match c with
  | .BLINK =>
      let leftEAR := calculateEAR lm .left
      let rightEAR := calculateEAR lm .right
      let rawValue := min leftEAR rightEAR
      let newOpen := if rawValue > 0.3 then true else hasOpen
      let passed := if rawValue < cfg.blinkEARThreshold then newOpen else false
      (passed, 0, some rawValue, newOpen)
  | .TURN_LEFT =>
      let turnRatio := calculateHeadTurnV2 lm
      if turnRatio > cfg.headTurnThreshold then (true, 1, some turnRatio, hasOpen)
      else (false, max 0 (turnRatio / cfg.headTurnThreshold), some turnRatio, hasOpen)
  | .TURN_RIGHT =>
      let turnRatio := calculateHeadTurnV2 lm
      if turnRatio < -cfg.headTurnThreshold then (true, 1, some turnRatio, hasOpen)
      else (false, max 0 (turnRatio / -cfg.headTurnThreshold), some turnRatio, hasOpen)
  | .PROCESSING => (false, 0, none, hasOpen)

/-- `#processChallenge(landmarks)`: re-entrancy guard, metric evaluation,
progress report, then pass (schedule settle) / timeout check. -/
noncomputable def processChallenge (cfg : Config) (now : ℝ) (st : EngineState)
    (lm : Landmarks) : EngineState × List Emit :=
  if st.isChallengeProcessing then (st, [])
  else
    let r := evalChallenge cfg st.hasDetectedOpenEyes (currentChallengeOf st) lm
    let passed := r.1
    let progress := r.2.1
    let rawValue := r.2.2.1
    let st1 := { st with hasDetectedOpenEyes := r.2.2.2 }
    let clampedProgress := max 0 (min progress 1)
    let pe : List Emit := [.progressEmit clampedProgress rawValue]
    if passed then
      ({ st1 with isChallengeProcessing := true, settlePending := true }, pe)
    else if now - st1.lastChallengeTime > cfg.challengeTimeout then
      let s := stopEngine st1
      (s.1, pe ++ s.2 ++ [.failureEmit .CHALLENGE_TIMEOUT])
    else (st1, pe)

/-- `#onFaceMeshResults(results)`: ignore when stopped; on an empty
detection reset the open-eyes latch and check the face timeout; otherwise
evaluate the active challenge on the first face. -/
noncomputable def onFaceMeshResults (cfg : Config) (now : ℝ) (st : EngineState)
    (faces : Option Landmarks) : EngineState × List Emit :=
  if st.isStopped then (st, [])
  else
    match faces with
    | none =>
        let st1 := { st with hasDetectedOpenEyes := false }
        if now - st1.lastChallengeTime > cfg.challengeTimeout then
          let s := stopEngine st1
          (s.1, s.2 ++ [.failureEmit .FACE_NOT_FOUND])
        else (st1, [])
    | some lm => processChallenge cfg now st lm

/-- `start(videoElement, canvasCtx)`: reset the session fields, install
the freshly generated challenge list, notify the first challenge, and
(re)start the detection loop.  Note it does not touch a pending settle
timeout. -/
def startEngine (cs : List ChallengeType) (now : ℝ) (st : EngineState) :
    EngineState × List Emit :=
  ({ st with
      isStopped := false
      isChallengeProcessing := false
      currentChallengeIndex := 0
      lastChallengeTime := now
      hasDetectedOpenEyes := false
      lastFrameTime := 0
      challenges := cs
      loopScheduled := true },
   [.challengeChanged (cs.getD 0 .PROCESSING)])

/-- The settle timeout scheduled by a passed challenge firing: it calls
`#moveToNextChallenge` whenever it was actually scheduled (the code never
cancels it, not even in `stop()`). -/
noncomputable def settleFire (env : Env) (now : ℝ) (st : EngineState) :
    EngineState × List Emit :=
  if st.settlePending then moveToNextChallenge env now { st with settlePending := false }
  else (st, [])

/-- The externally triggered events that drive the engine:
a `start()` call (with the random draws of its `#generateChallenges`
call), a face-mesh results callback, the settle timeout firing, and a
`stop()` call. -/
inductive Ev
  | startEv (coin : Bool) (j2 : Fin 3) (j1 : Fin 2) (now : ℝ)
  | frame (now : ℝ) (faces : Option Landmarks)
  | settleEv (now : ℝ)
  | stopEv

/-- One engine step on one event. -/
noncomputable def stepEv (cfg : Config) (env : Env) (st : EngineState) :
    Ev → EngineState × List Emit
  | .startEv coin j2 j1 now => startEngine (generateChallenges coin j2 j1) now st
  | .frame now faces => onFaceMeshResults cfg now st faces
  | .settleEv now => settleFire env now st
  | .stopEv => stopEngine st

/-- Run the engine over a list of events, accumulating emissions. -/
noncomputable def runFrom (cfg : Config) (env : Env) (st : EngineState) :
    List Ev → EngineState × List Emit
  | [] => (st, [])
  | e :: es =>
      let s := stepEv cfg env st e
      let r := runFrom cfg env s.1 es
      (r.1, s.2 ++ r.2)

/-- Run the engine from its constructed state. -/
noncomputable def runEngine (cfg : Config) (env : Env) (es : List Ev) :
    EngineState × List Emit :=
  runFrom cfg env initState es

/-! ### Frame scheduler (`#detectionLoop`, lines 173-180) -/

/-- JavaScript `%` on (nonnegative) floats: `a - b * trunc (a / b)`,
which for positive operands equals `a - b * floor (a / b)`. -/
noncomputable def jsFmod (a b : ℝ) : ℝ := a - b * ⌊a / b⌋

/-- The throttling body of `#detectionLoop`: given the stored
`#lastFrameTime` and the current time, decide whether to forward a frame
to the face-mesh collaborator, and compute the updated `#lastFrameTime`. -/
noncomputable def detectionTick (cfg : Config) (lastFrameTime now : ℝ) : Bool × ℝ :=
  let elapsed := now - lastFrameTime
  let fpsInterval := 1000 / cfg.targetFPS
  if elapsed > fpsInterval then (true, now - jsFmod elapsed fpsInterval)
  else (false, lastFrameTime)

/-! ### Concrete fixtures for witnesses and counterexamples -/

/-- A synthetic landmark set in which both eyes have horizontal width 1
and vertical lid distances `v`, so that each eye's EAR is exactly `v`
(for `0 ≤ v`). -/
def earLandmarks (v : ℝ) : Landmarks := fun i =>
  if i = 263 ∨ i = 133 ∨ i = 373 ∨ i = 153 then ⟨1, 0, 0⟩
  else if i = 385 ∨ i = 160 then ⟨0, v, 0⟩
  else if i = 387 ∨ i = 158 then ⟨1, v, 0⟩
  else ⟨0, 0, 0⟩

/-- A pose whose cheek-to-cheek distance is 1 and yaw ratio is 0.8
(passes TURN_LEFT at the default threshold). -/
def lmTurnLeft : Landmarks := fun i =>
  if i = 454 then ⟨0.6, 0, 0.8⟩ else ⟨0, 0, 0⟩

/-- A pose whose cheek-to-cheek distance is 1 and yaw ratio is -0.8
(passes TURN_RIGHT at the default threshold). -/
def lmTurnRight : Landmarks := fun i =>
  if i = 234 then ⟨0, 0, 0.8⟩ else ⟨0.6, 0, 0⟩

/-- A neutral pose: both cheeks at equal depth 0.8 relative to the chin,
cheek distance 0.6. -/
def lmNeutral : Landmarks := fun i =>
  if i = 454 then ⟨0.6, 0, 0.8⟩ else if i = 234 then ⟨0, 0, 0.8⟩ else ⟨0, 0, 0⟩

/-- The degenerate all-origin landmark set. -/
def constLm : Landmarks := fun _ => ⟨0, 0, 0⟩

/-- A 128-dimensional unit embedding. -/
def oneHot128 : List ℝ := 1 :: List.replicate 127 0

/-- The 128-dimensional zero embedding. -/
def zero128 : List ℝ := List.replicate 128 0

/-- Frames that satisfy a given challenge at the default configuration:
open-then-closed eyes for BLINK, a single strong turn otherwise. -/
def passEvents : ChallengeType → List Ev
  | .BLINK => [.frame 0 (some (earLandmarks 0.35)), .frame 0 (some (earLandmarks 0.1))]
  | .TURN_LEFT => [.frame 0 (some lmTurnLeft)]
  | .TURN_RIGHT => [.frame 0 (some lmTurnRight)]
  | .PROCESSING => []

/-- For each challenge of the list in order: its passing frames followed
by the settle timeout firing. -/
def segTrace (cs : List ChallengeType) : List Ev :=
  cs.flatMap fun c => passEvents c ++ [.settleEv 0]

/-- A full passing session: `start()` with the given random draws, then
passing frames and settle firings for each generated challenge in
order. -/
def sessionTrace (coin : Bool) (j2 : Fin 3) (j1 : Fin 2) : List Ev :=
  .startEv coin j2 j1 0 :: segTrace (generateChallenges coin j2 j1)

/-- A sequence of face frames with the given minimum EARs, all delivered
at time `t`. -/
def blinkTrace (t : ℝ) (vs : List ℝ) : List Ev :=
  vs.map fun v => .frame t (some (earLandmarks v))

/-- A session in which the last challenge passes after its timeout
budget, a face-lost frame then arrives inside the settle window, and the
settle timeout finally fires. -/
def dupTrace : List Ev :=
  [.startEv true 2 1 0,
   .frame 0 (some (earLandmarks 0.35)), .frame 0 (some (earLandmarks 0.1)), .settleEv 0,
   .frame 0 (some lmTurnLeft), .settleEv 0,
   .frame 6000 (some lmTurnRight),
   .frame 6010 none,
   .settleEv 6300]

/-- A blink challenge interrupted by a no-face frame between the
eyes-open observation and the eyes-closed observation. -/
def c2CounterTrace : List Ev :=
  [.startEv true 2 1 0,
   .frame 0 (some (earLandmarks 0.35)),
   .frame 0 none,
   .frame 0 (some (earLandmarks 0.1))]

/-- The minimum of the two per-eye EARs, the blink raw value. -/
noncomputable def minEAR (lm : Landmarks) : ℝ :=
  min (calculateEAR lm .left) (calculateEAR lm .right)

/-- The trace contains no no-face frame. -/
def noFaceFree (es : List Ev) : Prop := ∀ t : ℝ, Ev.frame t none ∉ es

/-- The trace contains no start event. -/
def startFree (es : List Ev) : Prop :=
  ∀ (coin : Bool) (j2 : Fin 3) (j1 : Fin 2) (t : ℝ), Ev.startEv coin j2 j1 t ∉ es

/-- A started session awaiting its first challenge (BLINK). -/
def awaitState : EngineState :=
  { initState with
      isStopped := false
      challenges := [.BLINK, .TURN_LEFT, .TURN_RIGHT]
      loopScheduled := true }

/-- The engine state right after `start()` from the constructed state at
time 0, with the given generated challenge list. -/
def startedState (cs : List ChallengeType) : EngineState :=
  { initState with
      isStopped := false
      challenges := cs
      loopScheduled := true }

/-- Intermediate states of `dupTrace`: after the eyes-open frame. -/
def dupA1 : EngineState := { awaitState with hasDetectedOpenEyes := true }

/-- After the blink passes: settling. -/
def dupA2 : EngineState :=
  { awaitState with
      hasDetectedOpenEyes := true
      isChallengeProcessing := true
      settlePending := true }

/-- After the first settle: awaiting TURN_LEFT. -/
def dupA3 : EngineState := { awaitState with currentChallengeIndex := 1 }

/-- After TURN_LEFT passes: settling. -/
def dupA4 : EngineState :=
  { awaitState with
      currentChallengeIndex := 1
      isChallengeProcessing := true
      settlePending := true }

/-- After the second settle: awaiting TURN_RIGHT. -/
def dupA5 : EngineState := { awaitState with currentChallengeIndex := 2 }

/-- After TURN_RIGHT passes (late): settling, with the timeout budget
already exceeded. -/
def dupA6 : EngineState :=
  { awaitState with
      currentChallengeIndex := 2
      isChallengeProcessing := true
      settlePending := true }

/-- After the late no-face frame: failed with FACE_NOT_FOUND and
stopped, but with the settle timeout still pending. -/
def dupA7 : EngineState :=
  { awaitState with
      currentChallengeIndex := 2
      isChallengeProcessing := true
      settlePending := true
      isStopped := true
      loopScheduled := false }

/-- After the pending settle fires anyway: completed. -/
def dupA8 : EngineState :=
  { awaitState with
      currentChallengeIndex := 3
      isChallengeProcessing := true
      isStopped := true
      loopScheduled := false }

end Liveness

namespace Liveness

/-! ### Helper lemmas -/

theorem sqrtEval {a b : ℝ} (hb : 0 ≤ b) (h : b ^ 2 = a) : Real.sqrt a = b := by
  rw [← h]; exact Real.sqrt_sq hb

theorem sum_sq_nonneg (v : List ℝ) : 0 ≤ (v.map fun x => x ^ 2).sum := by
  apply List.sum_nonneg
  intro x hx
  obtain ⟨y, _, rfl⟩ := List.mem_map.mp hx
  positivity

theorem l2norm_nonneg (v : List ℝ) : 0 ≤ l2norm v := Real.sqrt_nonneg _

theorem zipWith_mul_same (v : List ℝ) :
    List.zipWith (· * ·) v v = v.map fun x => x ^ 2 := by
  induction v with
  | nil => rfl
  | cons a t ih => simp [ih, pow_two]

theorem zipWith_mul_neg (v : List ℝ) :
    List.zipWith (· * ·) v (v.map fun x => -x) = v.map fun x => -(x ^ 2) := by
  induction v with
  | nil => rfl
  | cons a t ih => simp [ih, pow_two]

theorem sum_map_neg_sq (v : List ℝ) :
    (v.map fun x => -(x ^ 2)).sum = -(v.map fun x => x ^ 2).sum := by
  induction v with
  | nil => simp
  | cons a t ih => simp [ih]; ring

theorem sum_sq_of_l2norm_one {v : List ℝ} (h : l2norm v = 1) :
    (v.map fun x => x ^ 2).sum = 1 :=
  Real.sqrt_eq_one.mp h

theorem permProb_eq_sixth (p : List ChallengeType)
    (h : (Finset.univ.filter fun r : RandSrc =>
        generateChallenges r.1 r.2.1 r.2.2 = p).card = 2) :
    permProb p = 1 / 6 := by
  have huniv : (Finset.univ : Finset RandSrc).card = 12 := by decide
  unfold permProb
  rw [h, huniv]
  norm_num

/-! ### Claim C3 -/

/-- Claim C3: `generate()` returns a 3-element sequence that is a
permutation of one BLINK, one TURN_LEFT, one TURN_RIGHT, and over the
uniform random choices (the 0.5 pairing coin and the Fisher–Yates draws
from the last index down to 1) each of the 6 orderings occurs with
probability exactly 1/6. -/
theorem c3_generate_uniform :
    (∀ r : RandSrc,
      (generateChallenges r.1 r.2.1 r.2.2).length = 3 ∧
      (generateChallenges r.1 r.2.1 r.2.2).Perm
        [ChallengeType.BLINK, .TURN_LEFT, .TURN_RIGHT]) ∧
    permProb [.BLINK, .TURN_LEFT, .TURN_RIGHT] = 1 / 6 ∧
    permProb [.BLINK, .TURN_RIGHT, .TURN_LEFT] = 1 / 6 ∧
    permProb [.TURN_LEFT, .BLINK, .TURN_RIGHT] = 1 / 6 ∧
    permProb [.TURN_LEFT, .TURN_RIGHT, .BLINK] = 1 / 6 ∧
    permProb [.TURN_RIGHT, .BLINK, .TURN_LEFT] = 1 / 6 ∧
    permProb [.TURN_RIGHT, .TURN_LEFT, .BLINK] = 1 / 6 :=
  ⟨by decide, permProb_eq_sixth _ (by decide), permProb_eq_sixth _ (by decide),
   permProb_eq_sixth _ (by decide), permProb_eq_sixth _ (by decide),
   permProb_eq_sixth _ (by decide), permProb_eq_sixth _ (by decide)⟩

/-! ### Claim C7 -/

/-- Claim C7: `calculateCosineSimilarity` returns 0 when either input is
absent or the lengths differ, and otherwise returns exactly the dot
product; hence it yields 1 on `(v, v)`, -1 on `(v, -v)` for unit vectors
`v`, and 0 on orthogonal vectors. -/
theorem c7_cosine_similarity :
    (∀ b, calculateCosineSimilarity none b = 0) ∧
    (∀ a, calculateCosineSimilarity a none = 0) ∧
    (∀ a b : List ℝ, a.length ≠ b.length →
      calculateCosineSimilarity (some a) (some b) = 0) ∧
    (∀ a b : List ℝ, a.length = b.length →
      calculateCosineSimilarity (some a) (some b) = (List.zipWith (· * ·) a b).sum) ∧
    (∀ v : List ℝ, l2norm v = 1 →
      calculateCosineSimilarity (some v) (some v) = 1 ∧
      calculateCosineSimilarity (some v) (some (v.map fun x => -x)) = -1) ∧
    (∀ v w : List ℝ, v.length = w.length → (List.zipWith (· * ·) v w).sum = 0 →
      calculateCosineSimilarity (some v) (some w) = 0) := by
  refine ⟨fun b => rfl, fun a => ?_, fun a b h => ?_, fun a b h => ?_, fun v hv => ?_,
    fun v w h hdot => ?_⟩
  · cases a <;> rfl
  · simp [calculateCosineSimilarity, h]
  · simp [calculateCosineSimilarity, h]
  · constructor
    · simp only [calculateCosineSimilarity, ne_eq, not_true_eq_false, if_false]
      rw [zipWith_mul_same]
      exact sum_sq_of_l2norm_one hv
    · simp only [calculateCosineSimilarity]
      rw [if_neg (by simp), zipWith_mul_neg, sum_map_neg_sq, sum_sq_of_l2norm_one hv]
  · simp [calculateCosineSimilarity, h, hdot]

/-- Witness for C7 at concrete vectors. -/
theorem c7_witness :
    calculateCosineSimilarity (some [1, 0, 0]) (some [1, 0, 0]) = 1 ∧
    calculateCosineSimilarity (some [1, 0, 0]) (some [-1, 0, 0]) = -1 ∧
    calculateCosineSimilarity (some [1, 0, 0]) (some [0, 1, 0]) = 0 ∧
    calculateCosineSimilarity (some [1, 0]) (some [1, 0, 0]) = 0 := by
  have hnorm : l2norm [1, 0, 0] = 1 := by
    simp [l2norm]
  have hv := c7_cosine_similarity.2.2.2.2.1 [1, 0, 0] hnorm
  refine ⟨hv.1, ?_, ?_, ?_⟩
  · have hmap : ([1, 0, 0] : List ℝ).map (fun x => -x) = [-1, 0, 0] := by norm_num
    rw [← hmap]; exact hv.2
  · exact c7_cosine_similarity.2.2.2.2.2 [1, 0, 0] [0, 1, 0] rfl (by norm_num)
  · exact c7_cosine_similarity.2.2.1 [1, 0] [1, 0, 0] (by norm_num)

/-! ### Claim C8 -/

/-- Claim C8: `calculateHeadTurnV2` returns 0 whenever the 3D distance
between the cheek landmarks is below 0.1, and otherwise returns the
depth-difference ratio, which is 0 exactly when the two cheek depths
relative to the chin coincide. -/
theorem c8_head_turn (lm : Landmarks) :
    (euclideanDistance (lm 234) (lm 454) < 0.1 → calculateHeadTurnV2 lm = 0) ∧
    (¬ euclideanDistance (lm 234) (lm 454) < 0.1 →
      calculateHeadTurnV2 lm =
        (((lm 454).z - (lm 152).z) - ((lm 234).z - (lm 152).z)) /
          euclideanDistance (lm 234) (lm 454)) ∧
    (¬ euclideanDistance (lm 234) (lm 454) < 0.1 →
      (lm 454).z - (lm 152).z = (lm 234).z - (lm 152).z →
      calculateHeadTurnV2 lm = 0) := by
  refine ⟨fun h => ?_, fun h => ?_, fun h heq => ?_⟩
  · simp only [calculateHeadTurnV2, if_pos h]
  · simp only [calculateHeadTurnV2, if_neg h]
  · simp only [calculateHeadTurnV2, if_neg h, heq, sub_self, zero_div]

/-- Witness for C8: the degenerate all-origin pose returns 0 through the
width guard, and a neutral wide pose with equal cheek depths returns 0
through the ratio. -/
theorem c8_witness :
    euclideanDistance (constLm 234) (constLm 454) < 0.1 ∧
    calculateHeadTurnV2 constLm = 0 ∧
    ¬ euclideanDistance (lmNeutral 234) (lmNeutral 454) < 0.1 ∧
    calculateHeadTurnV2 lmNeutral = 0 := by
  have h0 : euclideanDistance (constLm 234) (constLm 454) < 0.1 := by
    simp [euclideanDistance, constLm]
    norm_num
  have h6 : euclideanDistance (lmNeutral 234) (lmNeutral 454) = 0.6 := by
    unfold euclideanDistance
    refine sqrtEval (by norm_num) ?_
    simp only [lmNeutral]
    norm_num
  refine ⟨h0, (c8_head_turn constLm).1 h0, ?_, ?_⟩
  · rw [h6]; norm_num
  · exact (c8_head_turn lmNeutral).2.2 (by rw [h6]; norm_num) (by simp [lmNeutral])

/-! ### Claim C4 -/

/-- Claim C4 (amended): on a tick, a frame is forwarded if and only if
the elapsed time strictly exceeds `1000 / targetFPS` (the code tests
`elapsed > fpsInterval`, so elapsed exactly equal to the interval does
not forward); on forwarding the stored timestamp becomes
`now - (elapsed mod interval)`, a carry-over remainder lying in
`[0, interval)`. -/
theorem c4_scheduler_amended (cfg : Config) (last now : ℝ) :
    ((detectionTick cfg last now).1 = true ↔ now - last > 1000 / cfg.targetFPS) ∧
    (now - last > 1000 / cfg.targetFPS →
      (detectionTick cfg last now).2 = now - jsFmod (now - last) (1000 / cfg.targetFPS)) ∧
    (¬ now - last > 1000 / cfg.targetFPS → (detectionTick cfg last now).2 = last) ∧
    (0 < cfg.targetFPS →
      0 ≤ jsFmod (now - last) (1000 / cfg.targetFPS) ∧
      jsFmod (now - last) (1000 / cfg.targetFPS) < 1000 / cfg.targetFPS) := by
  refine ⟨?_, fun h => ?_, fun h => ?_, fun hf => ?_⟩
  · by_cases h : now - last > 1000 / cfg.targetFPS <;> simp [detectionTick, h]
  · simp only [detectionTick, if_pos h]
  · simp only [detectionTick, if_neg h]
  · have hb : (0 : ℝ) < 1000 / cfg.targetFPS := by positivity
    set a := now - last with ha
    set b := 1000 / cfg.targetFPS with hbdef
    have h1 : (⌊a / b⌋ : ℝ) ≤ a / b := Int.floor_le _
    have h2 : a / b < ⌊a / b⌋ + 1 := Int.lt_floor_add_one _
    have hmul1 : b * (⌊a / b⌋ : ℝ) ≤ b * (a / b) :=
      mul_le_mul_of_nonneg_left h1 hb.le
    have hmul2 : b * (a / b) < b * ((⌊a / b⌋ : ℝ) + 1) :=
      (mul_lt_mul_left hb).mpr h2
    have hcancel : b * (a / b) = a := by field_simp
    constructor
    · unfold jsFmod; linarith [hmul1, hcancel]
    · unfold jsFmod; nlinarith [hmul2, hcancel]

/-- Counterexample for C4 as stated: with `targetFPS = 25` the interval
is 40 ms; at elapsed time exactly 40 ms the elapsed time is at least the
interval, yet no frame is forwarded. -/
theorem c4_counterexample :
    (40 : ℝ) - 0 ≥ 1000 / ({ defaultConfig with targetFPS := 25 } : Config).targetFPS ∧
    (detectionTick { defaultConfig with targetFPS := 25 } 0 40).1 = false := by
  constructor
  · norm_num [defaultConfig]
  · norm_num [detectionTick, defaultConfig]

/-- Witness for C4 (amended) at elapsed 100 ms, default 30 fps. -/
theorem c4_witness :
    (detectionTick defaultConfig 0 100).1 = true ∧
    (detectionTick defaultConfig 0 100).2 =
      100 - jsFmod (100 - 0) (1000 / defaultConfig.targetFPS) ∧
    0 ≤ jsFmod ((100 : ℝ) - 0) (1000 / defaultConfig.targetFPS) ∧
    jsFmod ((100 : ℝ) - 0) (1000 / defaultConfig.targetFPS) <
      1000 / defaultConfig.targetFPS := by
  have h := c4_scheduler_amended defaultConfig 0 100
  have hgt : (100 : ℝ) - 0 > 1000 / defaultConfig.targetFPS := by
    norm_num [defaultConfig]
  have hf : (0 : ℝ) < defaultConfig.targetFPS := by norm_num [defaultConfig]
  exact ⟨h.1.mpr hgt, h.2.1 hgt, (h.2.2.2 hf).1, (h.2.2.2 hf).2⟩

/-! ### Claim C6 -/

/-- Claim C6: when descriptor extraction succeeds in `#completeLiveness`,
the emitted descriptor is the raw embedding divided componentwise by its
Euclidean norm when that norm exceeds `1e-6`, and the un-normalized raw
embedding otherwise; in both cases a success event is emitted. -/
theorem c6_descriptor_normalization (env : Env) (st : EngineState) (e : List ℝ)
    (he : env.embedding = some e) :
    (l2norm e > 1e-6 →
      (completeLiveness env st).2 =
        [.clearSurface, .challengeChanged .PROCESSING,
         .successEmit (e.map fun x => x / l2norm e)]) ∧
    (¬ l2norm e > 1e-6 →
      (completeLiveness env st).2 =
        [.clearSurface, .challengeChanged .PROCESSING, .successEmit e]) := by
  constructor <;> intro h <;>
    simp [completeLiveness, stopEngine, he, normalizeEmbedding, h]

/-- The unit embedding has norm 1. -/
theorem l2norm_oneHot : l2norm oneHot128 = 1 := by
  simp [l2norm, oneHot128, List.map_replicate, List.sum_replicate]

/-- The zero embedding has norm 0. -/
theorem l2norm_zero128 : l2norm zero128 = 0 := by
  simp [l2norm, zero128, List.map_replicate, List.sum_replicate]

/-- Witness for C6 at the unit embedding. -/
theorem c6_witness :
    l2norm oneHot128 > 1e-6 ∧
    (completeLiveness ⟨some oneHot128⟩ initState).2 =
      [.clearSurface, .challengeChanged .PROCESSING,
       .successEmit (oneHot128.map fun x => x / l2norm oneHot128)] := by
  have h : l2norm oneHot128 > 1e-6 := by rw [l2norm_oneHot]; norm_num
  exact ⟨h, (c6_descriptor_normalization ⟨some oneHot128⟩ initState oneHot128 rfl).1 h⟩

/-! ### Engine evaluation helpers -/

theorem runFrom_nil (cfg : Config) (env : Env) (st : EngineState) :
    runFrom cfg env st [] = (st, []) := rfl

theorem runFrom_cons (cfg : Config) (env : Env) (st : EngineState) (e : Ev) (es : List Ev) :
    runFrom cfg env st (e :: es) =
      ((runFrom cfg env (stepEv cfg env st e).1 es).1,
       (stepEv cfg env st e).2 ++ (runFrom cfg env (stepEv cfg env st e).1 es).2) := rfl

theorem runFrom_append (cfg : Config) (env : Env) (st : EngineState) (es1 es2 : List Ev) :
    runFrom cfg env st (es1 ++ es2) =
      ((runFrom cfg env (runFrom cfg env st es1).1 es2).1,
       (runFrom cfg env st es1).2 ++ (runFrom cfg env (runFrom cfg env st es1).1 es2).2) := by
  induction es1 generalizing st with
  | nil => simp [runFrom]
  | cons e t ih => simp [runFrom_cons, ih]

/-- A frame arriving while the engine is stopped is fully ignored. -/
theorem step_frame_stopped (cfg : Config) (env : Env) (st : EngineState) (now : ℝ)
    (faces : Option Landmarks) (h : st.isStopped = true) :
    stepEv cfg env st (.frame now faces) = (st, []) := by
  simp [stepEv, onFaceMeshResults, h]

/-- A face frame arriving while the re-entrancy flag is set is fully
ignored. -/
theorem step_frame_processing (cfg : Config) (env : Env) (st : EngineState) (now : ℝ)
    (lm : Landmarks) (h : st.isChallengeProcessing = true) :
    stepEv cfg env st (.frame now (some lm)) = (st, []) := by
  by_cases hs : st.isStopped = true
  · simp [stepEv, onFaceMeshResults, hs]
  · simp only [Bool.not_eq_true] at hs
    simp [stepEv, onFaceMeshResults, hs, processChallenge, h]

/-- Face frames are absorbed without effect once the re-entrancy flag is
set. -/
theorem runFrom_absorb_faces (cfg : Config) (env : Env) (st : EngineState) (es : List Ev)
    (hes : ∀ e ∈ es, ∃ t lm, e = Ev.frame t (some lm))
    (h : st.isChallengeProcessing = true) :
    runFrom cfg env st es = (st, []) := by
  induction es with
  | nil => rfl
  | cons e t ih =>
      obtain ⟨tm, lm, rfl⟩ := hes _ (List.mem_cons_self _ _)
      rw [runFrom_cons, step_frame_processing cfg env st tm lm h]
      simp [ih fun e he => hes e (List.mem_cons_of_mem _ he)]

theorem euclid_vert (a v c : ℝ) (hv : 0 ≤ v) :
    euclideanDistance ⟨a, v, c⟩ ⟨a, 0, c⟩ = v := by
  unfold euclideanDistance
  refine sqrtEval hv ?_
  ring

theorem calculateEAR_earLandmarks (v : ℝ) (hv : 0 ≤ v) (side : EyeSide) :
    calculateEAR (earLandmarks v) side = v := by
  have h1 : euclideanDistance (⟨0, v, 0⟩ : Point3) ⟨0, 0, 0⟩ = v := euclid_vert 0 v 0 hv
  have h2 : euclideanDistance (⟨1, v, 0⟩ : Point3) ⟨1, 0, 0⟩ = v := euclid_vert 1 v 0 hv
  have h3 : euclideanDistance (⟨0, 0, 0⟩ : Point3) ⟨1, 0, 0⟩ = 1 := by
    unfold euclideanDistance
    refine sqrtEval (by norm_num) ?_
    norm_num
  cases side <;>
  · simp only [calculateEAR, eyeIndices]
    norm_num [earLandmarks, h1, h2, h3]

theorem headTurn_lmTurnLeft : calculateHeadTurnV2 lmTurnLeft = 0.8 := by
  have hw : euclideanDistance (lmTurnLeft 234) (lmTurnLeft 454) = 1 := by
    unfold euclideanDistance
    refine sqrtEval (by norm_num) ?_
    norm_num [lmTurnLeft]
  simp only [calculateHeadTurnV2, hw]
  norm_num [lmTurnLeft]

theorem headTurn_lmTurnRight : calculateHeadTurnV2 lmTurnRight = -0.8 := by
  have hw : euclideanDistance (lmTurnRight 234) (lmTurnRight 454) = 1 := by
    unfold euclideanDistance
    refine sqrtEval (by norm_num) ?_
    norm_num [lmTurnRight]
  simp only [calculateHeadTurnV2, hw]
  norm_num [lmTurnRight]

/-- BLINK on the open-eyes fixture: latches but does not pass. -/
theorem evalBlink_open (latch : Bool) :
    evalChallenge defaultConfig latch .BLINK (earLandmarks 0.35) =
      (false, 0, some 0.35, true) := by
  have h := calculateEAR_earLandmarks 0.35 (by norm_num)
  simp only [evalChallenge, h .left, h .right, min_self]
  norm_num [defaultConfig]

/-- BLINK on the closed-eyes fixture: passes exactly when the latch was
already set. -/
theorem evalBlink_closed (latch : Bool) :
    evalChallenge defaultConfig latch .BLINK (earLandmarks 0.1) =
      (latch, 0, some 0.1, latch) := by
  have h := calculateEAR_earLandmarks 0.1 (by norm_num)
  simp only [evalChallenge, h .left, h .right, min_self]
  norm_num [defaultConfig]

theorem evalTurnLeft (latch : Bool) :
    evalChallenge defaultConfig latch .TURN_LEFT lmTurnLeft =
      (true, 1, some 0.8, latch) := by
  simp only [evalChallenge, headTurn_lmTurnLeft]
  norm_num [defaultConfig]

theorem evalTurnRight (latch : Bool) :
    evalChallenge defaultConfig latch .TURN_RIGHT lmTurnRight =
      (true, 1, some (-0.8), latch) := by
  simp only [evalChallenge, headTurn_lmTurnRight]
  norm_num [defaultConfig]

/-- A passing face frame: set the latch result, raise the re-entrancy
flag and schedule the settle timeout. -/
theorem step_face_pass (cfg : Config) (env : Env) (st : EngineState) (now : ℝ)
    (lm : Landmarks) (prog : ℝ) (raw : Option ℝ) (newOpen : Bool)
    (hstop : st.isStopped = false) (hproc : st.isChallengeProcessing = false)
    (heval : evalChallenge cfg st.hasDetectedOpenEyes (currentChallengeOf st) lm =
      (true, prog, raw, newOpen)) :
    stepEv cfg env st (.frame now (some lm)) =
      ({ st with hasDetectedOpenEyes := newOpen, isChallengeProcessing := true,
                 settlePending := true },
       [.progressEmit (max 0 (min prog 1)) raw]) := by
  simp [stepEv, onFaceMeshResults, hstop, processChallenge, hproc, heval]

/-- A failing face frame within the timeout budget: only the latch is
updated. -/
theorem step_face_cont (cfg : Config) (env : Env) (st : EngineState) (now : ℝ)
    (lm : Landmarks) (prog : ℝ) (raw : Option ℝ) (newOpen : Bool)
    (hstop : st.isStopped = false) (hproc : st.isChallengeProcessing = false)
    (heval : evalChallenge cfg st.hasDetectedOpenEyes (currentChallengeOf st) lm =
      (false, prog, raw, newOpen))
    (hto : ¬ now - st.lastChallengeTime > cfg.challengeTimeout) :
    stepEv cfg env st (.frame now (some lm)) =
      ({ st with hasDetectedOpenEyes := newOpen },
       [.progressEmit (max 0 (min prog 1)) raw]) := by
  simp [stepEv, onFaceMeshResults, hstop, processChallenge, hproc, heval, hto]

/-- A failing face frame past the timeout budget: the session fails with
CHALLENGE_TIMEOUT. -/
theorem step_face_timeout (cfg : Config) (env : Env) (st : EngineState) (now : ℝ)
    (lm : Landmarks) (prog : ℝ) (raw : Option ℝ) (newOpen : Bool)
    (hstop : st.isStopped = false) (hproc : st.isChallengeProcessing = false)
    (heval : evalChallenge cfg st.hasDetectedOpenEyes (currentChallengeOf st) lm =
      (false, prog, raw, newOpen))
    (hto : now - st.lastChallengeTime > cfg.challengeTimeout) :
    stepEv cfg env st (.frame now (some lm)) =
      ({ st with hasDetectedOpenEyes := newOpen, isStopped := true, loopScheduled := false },
       [.progressEmit (max 0 (min prog 1)) raw, .clearSurface,
        .failureEmit .CHALLENGE_TIMEOUT]) := by
  simp [stepEv, onFaceMeshResults, hstop, processChallenge, hproc, heval, hto, stopEngine]

/-- A no-face frame within the timeout budget: reset the latch. -/
theorem step_noface_ok (cfg : Config) (env : Env) (st : EngineState) (now : ℝ)
    (hstop : st.isStopped = false)
    (hto : ¬ now - st.lastChallengeTime > cfg.challengeTimeout) :
    stepEv cfg env st (.frame now none) =
      ({ st with hasDetectedOpenEyes := false }, []) := by
  simp [stepEv, onFaceMeshResults, hstop, hto]

/-- A no-face frame past the timeout budget: the session fails with
FACE_NOT_FOUND. -/
theorem step_noface_timeout (cfg : Config) (env : Env) (st : EngineState) (now : ℝ)
    (hstop : st.isStopped = false)
    (hto : now - st.lastChallengeTime > cfg.challengeTimeout) :
    stepEv cfg env st (.frame now none) =
      ({ st with hasDetectedOpenEyes := false, isStopped := true, loopScheduled := false },
       [.clearSurface, .failureEmit .FACE_NOT_FOUND]) := by
  simp [stepEv, onFaceMeshResults, hstop, hto, stopEngine]

/-- A settle timeout firing with nothing scheduled is a no-op. -/
theorem step_settle_idle (cfg : Config) (env : Env) (st : EngineState) (now : ℝ)
    (hsp : st.settlePending = false) :
    stepEv cfg env st (.settleEv now) = (st, []) := by
  simp [stepEv, settleFire, hsp]

/-- A scheduled settle firing with challenges remaining: advance to the
next challenge. -/
theorem step_settle_next (cfg : Config) (env : Env) (st : EngineState) (now : ℝ)
    (hsp : st.settlePending = true)
    (hlen : st.currentChallengeIndex + 1 < st.challenges.length) :
    stepEv cfg env st (.settleEv now) =
      ({ st with currentChallengeIndex := st.currentChallengeIndex + 1,
                 hasDetectedOpenEyes := false, settlePending := false,
                 lastChallengeTime := now, isChallengeProcessing := false },
       [.challengeChanged (st.challenges.getD (st.currentChallengeIndex + 1) .PROCESSING)]) := by
  simp [stepEv, settleFire, hsp, moveToNextChallenge, currentChallengeOf, Nat.not_le_of_lt hlen,
    if_neg]

/-- A scheduled settle firing on the last challenge, with extraction
succeeding: complete the session. -/
theorem step_settle_complete (cfg : Config) (env : Env) (st : EngineState) (now : ℝ)
    (e : List ℝ) (hsp : st.settlePending = true)
    (hlen : st.currentChallengeIndex + 1 ≥ st.challenges.length)
    (hemb : env.embedding = some e) :
    stepEv cfg env st (.settleEv now) =
      ({ st with currentChallengeIndex := st.currentChallengeIndex + 1,
                 hasDetectedOpenEyes := false, settlePending := false,
                 isStopped := true, loopScheduled := false },
       [.clearSurface, .challengeChanged .PROCESSING,
        .successEmit (normalizeEmbedding e)]) := by
  simp [stepEv, settleFire, hsp, moveToNextChallenge, completeLiveness, stopEngine, hemb, hlen]

/-- A `start()` event resets the session and announces the first
generated challenge. -/
theorem step_start (cfg : Config) (env : Env) (st : EngineState) (coin : Bool)
    (j2 : Fin 3) (j1 : Fin 2) (now : ℝ) :
    stepEv cfg env st (.startEv coin j2 j1 now) =
      ({ st with isStopped := false, isChallengeProcessing := false,
                 currentChallengeIndex := 0, lastChallengeTime := now,
                 hasDetectedOpenEyes := false, lastFrameTime := 0,
                 challenges := generateChallenges coin j2 j1, loopScheduled := true },
       [.challengeChanged ((generateChallenges coin j2 j1).getD 0 .PROCESSING)]) := rfl

theorem blinkTrace_faces (t : ℝ) (vs : List ℝ) :
    ∀ e ∈ blinkTrace t vs, ∃ tm lm, e = Ev.frame tm (some lm) := by
  intro e he
  simp only [blinkTrace, List.mem_map] at he
  obtain ⟨v, _, rfl⟩ := he
  exact ⟨t, earLandmarks v, rfl⟩

/-- Characterization of a run of face frames during one BLINK challenge:
the re-entrancy flag ends up set exactly when some frame was below the
closed threshold while the latch was set, the latch being the initial
one or any earlier-or-equal frame above the OPEN threshold 0.3. -/
theorem blinkRun_iff (cfg : Config) (env : Env) (htime : 0 ≤ cfg.challengeTimeout)
    (vs : List ℝ) :
    ∀ (st : EngineState),
      (∀ v ∈ vs, 0 ≤ v) →
      st.isStopped = false →
      st.isChallengeProcessing = false →
      currentChallengeOf st = .BLINK →
      ((runFrom cfg env st
          (blinkTrace st.lastChallengeTime vs)).1.isChallengeProcessing = true ↔
        ∃ j < vs.length, vs.getD j 0 < cfg.blinkEARThreshold ∧
          (st.hasDetectedOpenEyes = true ∨ ∃ i ≤ j, vs.getD i 0 > 0.3)) := by
  induction vs with
  | nil =>
      intro st hnn hstop hproc hcur
      simp [blinkTrace, runFrom, hproc]
  | cons v vs ih =>
      intro st hnn hstop hproc hcur
      have hv : (0 : ℝ) ≤ v := hnn v (by simp)
      have heval : evalChallenge cfg st.hasDetectedOpenEyes (currentChallengeOf st)
          (earLandmarks v) =
          (if v < cfg.blinkEARThreshold then
             (if v > 0.3 then true else st.hasDetectedOpenEyes) else false,
           0, some v,
           if v > 0.3 then true else st.hasDetectedOpenEyes) := by
        have h := calculateEAR_earLandmarks v hv
        rw [hcur]
        simp only [evalChallenge, h .left, h .right, min_self]
      have hcons : blinkTrace st.lastChallengeTime (v :: vs) =
          Ev.frame st.lastChallengeTime (some (earLandmarks v)) ::
            blinkTrace st.lastChallengeTime vs := rfl
      have hto : ¬ st.lastChallengeTime - st.lastChallengeTime > cfg.challengeTimeout := by
        simp only [sub_self, gt_iff_lt, not_lt]
        exact htime
      by_cases hpass :
          (if v < cfg.blinkEARThreshold then
             (if v > 0.3 then true else st.hasDetectedOpenEyes) else false) = true
      · -- the first frame passes: all later frames are absorbed
        rw [hcons, runFrom_cons,
          step_face_pass cfg env st st.lastChallengeTime (earLandmarks v) 0 (some v) _
            hstop hproc (by rw [heval, hpass])]
        dsimp only
        rw [runFrom_absorb_faces cfg env _ _ (blinkTrace_faces _ _) rfl]
        dsimp only
        refine ⟨fun _ => ?_, fun _ => rfl⟩
        have hclosed : v < cfg.blinkEARThreshold := by
          by_contra hc
          rw [if_neg hc] at hpass
          exact Bool.false_ne_true hpass
        rw [if_pos hclosed] at hpass
        refine ⟨0, by simp, by simpa using hclosed, ?_⟩
        by_cases hopen : v > 0.3
        · exact Or.inr ⟨0, le_refl 0, by simpa using hopen⟩
        · rw [if_neg hopen] at hpass
          exact Or.inl hpass
      · -- the first frame does not pass (and cannot time out at elapsed 0)
        rw [hcons, runFrom_cons,
          step_face_cont cfg env st st.lastChallengeTime (earLandmarks v) 0 (some v) _
            hstop hproc (by rw [Bool.not_eq_true] at hpass; rw [heval, hpass]) hto]
        dsimp only
        set st1 : EngineState := { st with
          hasDetectedOpenEyes := if v > 0.3 then true else st.hasDetectedOpenEyes } with hst1
        have hlct : st1.lastChallengeTime = st.lastChallengeTime := rfl
        have hih := ih st1 (fun w hw => hnn w (List.mem_cons_of_mem _ hw)) hstop hproc
          (by simpa [currentChallengeOf, hst1] using hcur)
        rw [hlct] at hih
        rw [hih]
        constructor
        · rintro ⟨j, hj, hc, hopen⟩
          refine ⟨j + 1, by simpa using Nat.succ_lt_succ hj, by simpa using hc, ?_⟩
          rcases hopen with hopen | ⟨i, hi, ho⟩
          · simp only [hst1] at hopen
            by_cases hvo : v > 0.3
            · exact Or.inr ⟨0, Nat.zero_le _, by simpa using hvo⟩
            · rw [if_neg hvo] at hopen
              exact Or.inl hopen
          · exact Or.inr ⟨i + 1, Nat.succ_le_succ hi, by simpa using ho⟩
        · rintro ⟨j, hj, hc, hopen⟩
          cases j with
          | zero =>
              exfalso
              apply hpass
              simp only [List.getD_cons_zero] at hc
              rw [if_pos hc]
              rcases hopen with hopen | ⟨i, hi, ho⟩
              · by_cases hvo : v > 0.3
                · rw [if_pos hvo]
                · rw [if_neg hvo]; exact hopen
              · rcases Nat.le_zero.mp hi with rfl
                simp only [List.getD_cons_zero] at ho
                rw [if_pos ho]
          | succ j =>
              refine ⟨j, by simp only [List.length_cons] at hj; omega, by simpa using hc, ?_⟩
              rcases hopen with hopen | ⟨i, hi, ho⟩
              · left
                simp only [hst1]
                by_cases hvo : v > 0.3
                · rw [if_pos hvo]
                · rw [if_neg hvo]; exact hopen
              · cases i with
                | zero =>
                    left
                    simp only [List.getD_cons_zero] at ho
                    simp only [hst1, if_pos ho]
                | succ i =>
                    exact Or.inr ⟨i, by omega, by simpa using ho⟩

/-! ### Claim C2 -/

/-- Claim C2 (amended): during a Blink challenge evaluated on a sequence
of face frames with no intervening no-face frame, the challenge ends up
passed exactly when some frame is below the configured
`blinkEARThreshold` while some earlier-or-equal frame was above the
fixed OPEN threshold 0.3; in particular the minimum-EAR sequence
[0.35, 0.1] passes at the default configuration and [0.1, 0.1] alone
does not. -/
theorem c2_blink_pass_amended :
    (∀ (cfg : Config) (env : Env) (vs : List ℝ) (st : EngineState),
      0 ≤ cfg.challengeTimeout → (∀ v ∈ vs, 0 ≤ v) →
      st.isStopped = false → st.isChallengeProcessing = false →
      currentChallengeOf st = .BLINK → st.hasDetectedOpenEyes = false →
      ((runFrom cfg env st
          (blinkTrace st.lastChallengeTime vs)).1.isChallengeProcessing = true ↔
        ∃ j < vs.length, vs.getD j 0 < cfg.blinkEARThreshold ∧
          ∃ i ≤ j, vs.getD i 0 > 0.3)) ∧
    (runFrom defaultConfig ⟨none⟩ awaitState
      (blinkTrace 0 [0.35, 0.1])).1.isChallengeProcessing = true ∧
    (runFrom defaultConfig ⟨none⟩ awaitState
      (blinkTrace 0 [0.1, 0.1])).1.isChallengeProcessing = false := by
  have hmain : ∀ (cfg : Config) (env : Env) (vs : List ℝ) (st : EngineState),
      0 ≤ cfg.challengeTimeout → (∀ v ∈ vs, 0 ≤ v) →
      st.isStopped = false → st.isChallengeProcessing = false →
      currentChallengeOf st = .BLINK → st.hasDetectedOpenEyes = false →
      ((runFrom cfg env st
          (blinkTrace st.lastChallengeTime vs)).1.isChallengeProcessing = true ↔
        ∃ j < vs.length, vs.getD j 0 < cfg.blinkEARThreshold ∧
          ∃ i ≤ j, vs.getD i 0 > 0.3) := by
    intro cfg env vs st ht hnn hstop hproc hcur hlatch
    have h := blinkRun_iff cfg env ht vs st hnn hstop hproc hcur
    rw [hlatch] at h
    simpa using h
  refine ⟨hmain, ?_, ?_⟩
  · have h := hmain defaultConfig ⟨none⟩ [0.35, 0.1] awaitState
      (by norm_num [defaultConfig])
      (by intro v hv; simp at hv; rcases hv with rfl | rfl <;> norm_num)
      rfl rfl rfl rfl
    exact h.mpr ⟨1, by norm_num, by norm_num [List.getD, defaultConfig],
      0, Nat.zero_le 1, by norm_num [List.getD]⟩
  · have h := hmain defaultConfig ⟨none⟩ [0.1, 0.1] awaitState
      (by norm_num [defaultConfig])
      (by intro v hv; simp at hv; rcases hv with rfl | rfl <;> norm_num)
      rfl rfl rfl rfl
    by_contra hne
    rw [Bool.not_eq_false] at hne
    obtain ⟨j, hj, hc, i, hi, ho⟩ := h.mp hne
    have hj2 : j < 2 := by simpa using hj
    have hi2 : i < 2 := lt_of_le_of_lt hi hj2
    interval_cases i <;> norm_num [List.getD] at ho

/-- Witness for the C2 amended characterization, applied at the
open-then-closed sequence. -/
theorem c2_witness :
    (runFrom defaultConfig ⟨none⟩ awaitState
      (blinkTrace 0 [0.35, 0.1])).1.isChallengeProcessing = true := by
  have h := c2_blink_pass_amended.1 defaultConfig ⟨none⟩ [0.35, 0.1] awaitState
    (by norm_num [defaultConfig])
    (by intro v hv; simp at hv; rcases hv with rfl | rfl <;> norm_num)
    rfl rfl rfl rfl
  exact h.mpr ⟨1, by norm_num, by norm_num [List.getD, defaultConfig],
    0, Nat.zero_le 1, by norm_num [List.getD]⟩

/-- Counterexample for C2 as stated: an eyes-open frame (min EAR 0.35,
above 0.3), then a no-face frame, then an eyes-closed frame (min EAR 0.1,
below the closed threshold).  Some earlier evaluated frame of the
challenge was above OPEN and the current frame is below the closed
threshold, yet the blink does not pass, because the intervening no-face
frame reset the latch. -/
theorem c2_counterexample :
    min (calculateEAR (earLandmarks 0.35) .left) (calculateEAR (earLandmarks 0.35) .right)
      > 0.3 ∧
    min (calculateEAR (earLandmarks 0.1) .left) (calculateEAR (earLandmarks 0.1) .right)
      < defaultConfig.blinkEARThreshold ∧
    (runEngine defaultConfig ⟨none⟩ c2CounterTrace).1.isChallengeProcessing = false ∧
    (runEngine defaultConfig ⟨none⟩ c2CounterTrace).1.currentChallengeIndex = 0 ∧
    (runEngine defaultConfig ⟨none⟩ c2CounterTrace).2.filter Emit.isFailure = [] := by
  have e35 := calculateEAR_earLandmarks 0.35 (by norm_num)
  have e1 := calculateEAR_earLandmarks 0.1 (by norm_num)
  have h0 : stepEv defaultConfig ⟨none⟩ initState (.startEv true 2 1 0) =
      (awaitState, [.challengeChanged .BLINK]) := rfl
  have h1 : stepEv defaultConfig ⟨none⟩ awaitState (.frame 0 (some (earLandmarks 0.35))) =
      ({ awaitState with hasDetectedOpenEyes := true }, [.progressEmit 0 (some 0.35)]) := by
    rw [step_face_cont defaultConfig ⟨none⟩ awaitState 0 (earLandmarks 0.35) 0 (some 0.35)
      true rfl rfl (evalBlink_open _)
      (by show ¬((0 : ℝ) - 0 > defaultConfig.challengeTimeout); norm_num [defaultConfig])]
    norm_num
  have h2 : stepEv defaultConfig ⟨none⟩ ({ awaitState with hasDetectedOpenEyes := true })
      (.frame 0 none) =
      ({ awaitState with hasDetectedOpenEyes := false }, []) := by
    rw [step_noface_ok defaultConfig ⟨none⟩ _ 0 rfl
      (by show ¬((0 : ℝ) - 0 > defaultConfig.challengeTimeout); norm_num [defaultConfig])]
  have h3 : stepEv defaultConfig ⟨none⟩ ({ awaitState with hasDetectedOpenEyes := false })
      (.frame 0 (some (earLandmarks 0.1))) =
      ({ awaitState with hasDetectedOpenEyes := false }, [.progressEmit 0 (some 0.1)]) := by
    rw [step_face_cont defaultConfig ⟨none⟩ _ 0 (earLandmarks 0.1) 0 (some 0.1)
      false rfl rfl (evalBlink_closed _)
      (by show ¬((0 : ℝ) - 0 > defaultConfig.challengeTimeout); norm_num [defaultConfig])]
    norm_num
  have hrun : runEngine defaultConfig ⟨none⟩ c2CounterTrace =
      ({ awaitState with hasDetectedOpenEyes := false },
       [.challengeChanged .BLINK, .progressEmit 0 (some 0.35), .progressEmit 0 (some 0.1)]) := by
    rw [runEngine, show c2CounterTrace =
        .startEv true 2 1 0 :: [.frame 0 (some (earLandmarks 0.35)), .frame 0 none,
          .frame 0 (some (earLandmarks 0.1))] from rfl,
      runFrom_cons, h0]
    dsimp only
    rw [runFrom_cons, h1]
    dsimp only
    rw [runFrom_cons, h2]
    dsimp only
    rw [runFrom_cons, h3]
    dsimp only
    rw [runFrom_nil]
    simp
  refine ⟨?_, ?_, ?_, ?_, ?_⟩
  · rw [e35 .left, e35 .right, min_self]; norm_num
  · rw [e1 .left, e1 .right, min_self]; norm_num [defaultConfig]
  · rw [hrun]; rfl
  · rw [hrun]; rfl
  · rw [hrun]; rfl

/-! ### Claim C5 -/

/-- Claim C5: while a challenge is awaited, a no-face frame later than
`challengeTimeout` after the challenge start fails the session with
FACE_NOT_FOUND; a face frame that does not satisfy the metric, later
than `challengeTimeout` after the challenge start, fails it with
CHALLENGE_TIMEOUT; and no event other than a frame-evaluation ever
produces either timeout failure. -/
theorem c5_timeouts (cfg : Config) (env : Env) (st : EngineState) (now : ℝ)
    (lm : Landmarks)
    (hstop : st.isStopped = false) (hproc : st.isChallengeProcessing = false) :
    (now - st.lastChallengeTime > cfg.challengeTimeout →
      (stepEv cfg env st (.frame now none)).2 =
        [.clearSurface, .failureEmit .FACE_NOT_FOUND] ∧
      (stepEv cfg env st (.frame now none)).1.isStopped = true) ∧
    ((evalChallenge cfg st.hasDetectedOpenEyes (currentChallengeOf st) lm).1 = false →
      now - st.lastChallengeTime > cfg.challengeTimeout →
      Emit.failureEmit .CHALLENGE_TIMEOUT ∈ (stepEv cfg env st (.frame now (some lm))).2 ∧
      (stepEv cfg env st (.frame now (some lm))).1.isStopped = true) ∧
    (∀ (st' : EngineState) (e : Ev), (∀ t f, e ≠ .frame t f) →
      Emit.failureEmit .FACE_NOT_FOUND ∉ (stepEv cfg env st' e).2 ∧
      Emit.failureEmit .CHALLENGE_TIMEOUT ∉ (stepEv cfg env st' e).2) := by
  refine ⟨fun hto => ?_, fun hfail hto => ?_, fun st' e he => ?_⟩
  · rw [step_noface_timeout cfg env st now hstop hto]
    exact ⟨rfl, rfl⟩
  · have heval : evalChallenge cfg st.hasDetectedOpenEyes (currentChallengeOf st) lm =
        (false,
         (evalChallenge cfg st.hasDetectedOpenEyes (currentChallengeOf st) lm).2.1,
         (evalChallenge cfg st.hasDetectedOpenEyes (currentChallengeOf st) lm).2.2.1,
         (evalChallenge cfg st.hasDetectedOpenEyes (currentChallengeOf st) lm).2.2.2) := by
      rw [← hfail]
    rw [step_face_timeout cfg env st now lm _ _ _ hstop hproc heval hto]
    exact ⟨by simp, rfl⟩
  · cases e with
    | startEv coin j2 j1 t => rw [step_start]; simp
    | frame t f => exact absurd rfl (he t f)
    | stopEv => simp [stepEv, stopEngine]
    | settleEv t =>
        by_cases hsp : st'.settlePending = true
        · by_cases hlen : st'.currentChallengeIndex + 1 ≥ st'.challenges.length
          · cases hemb : env.embedding with
            | some emb =>
                rw [step_settle_complete cfg env st' t emb hsp hlen hemb]
                simp
            | none =>
                simp [stepEv, settleFire, hsp, moveToNextChallenge, hlen,
                  completeLiveness, hemb, stopEngine]
          · rw [step_settle_next cfg env st' t hsp (by omega)]
            simp
        · rw [step_settle_idle cfg env st' t (by simpa using hsp)]
          simp

/-- Witness for C5: a started session, a frame at 6000 ms against the
default 5000 ms budget. -/
theorem c5_witness :
    (stepEv defaultConfig ⟨none⟩ awaitState (.frame 6000 none)).2 =
      [.clearSurface, .failureEmit .FACE_NOT_FOUND] ∧
    Emit.failureEmit .CHALLENGE_TIMEOUT ∈
      (stepEv defaultConfig ⟨none⟩ awaitState (.frame 6000 (some (earLandmarks 0.1)))).2 ∧
    Emit.failureEmit .FACE_NOT_FOUND ∉
      (stepEv defaultConfig ⟨none⟩ awaitState .stopEv).2 := by
  have h := c5_timeouts defaultConfig ⟨none⟩ awaitState 6000 (earLandmarks 0.1) rfl rfl
  have hto : (6000 : ℝ) - awaitState.lastChallengeTime > defaultConfig.challengeTimeout := by
    show (6000 : ℝ) - 0 > defaultConfig.challengeTimeout
    norm_num [defaultConfig]
  have hfail : (evalChallenge defaultConfig awaitState.hasDetectedOpenEyes
      (currentChallengeOf awaitState) (earLandmarks 0.1)).1 = false := by
    rw [show currentChallengeOf awaitState = ChallengeType.BLINK from rfl,
      show awaitState.hasDetectedOpenEyes = false from rfl, evalBlink_closed false]
  exact ⟨(h.1 hto).1, (h.2.1 hfail hto).1,
    (h.2.2 awaitState .stopEv (by intro t f h'; exact Ev.noConfusion h')).1⟩

/-! ### Claim C9 -/

/-- Claim C9 (amended): `stop()` is idempotent, cancels the pending tick
registration, clears the render surface and emits nothing else; a frame
callback arriving once the engine is stopped is ignored entirely (no
state change, no emission).  The pending 300 ms settle timeout, however,
is not cancelled by `stop()`, so a duplicate terminal event remains
possible through the settle path (see the counterexample). -/
theorem c9_stop_amended (cfg : Config) (env : Env) (st : EngineState) :
    (stopEngine (stopEngine st).1).1 = (stopEngine st).1 ∧
    (stopEngine st).1.isStopped = true ∧
    (stopEngine st).1.loopScheduled = false ∧
    (stopEngine st).2 = [.clearSurface] ∧
    (∀ (now : ℝ) (faces : Option Landmarks), st.isStopped = true →
      stepEv cfg env st (.frame now faces) = (st, [])) :=
  ⟨rfl, rfl, rfl, rfl, fun now faces h => step_frame_stopped cfg env st now faces h⟩

/-- Witness for C9 (amended) at a concrete stopped state. -/
theorem c9_witness :
    (stopEngine (stopEngine awaitState).1).1 = (stopEngine awaitState).1 ∧
    stepEv defaultConfig ⟨none⟩ ({ awaitState with isStopped := true })
      (.frame 0 none) = ({ awaitState with isStopped := true }, []) := by
  have h := c9_stop_amended defaultConfig ⟨none⟩ awaitState
  have h2 := c9_stop_amended defaultConfig ⟨none⟩ ({ awaitState with isStopped := true })
  exact ⟨h.1, h2.2.2.2.2 0 none rfl⟩

/-! ### Session machinery for the end-to-end claims -/

/-- Running the passing frames of the active challenge raises the
re-entrancy flag and schedules the settle timeout, emitting only
progress reports. -/
theorem runSeg (env : Env) (c : ChallengeType)
    (hc : c = .BLINK ∨ c = .TURN_LEFT ∨ c = .TURN_RIGHT)
    (st : EngineState) (hstop : st.isStopped = false)
    (hproc : st.isChallengeProcessing = false)
    (hcur : currentChallengeOf st = c) (hlct : st.lastChallengeTime = 0) :
    ∃ (b : Bool) (ems : List Emit),
      runFrom defaultConfig env st (passEvents c) =
        ({ st with hasDetectedOpenEyes := b, isChallengeProcessing := true,
                   settlePending := true }, ems) ∧
      challengeEventsOf ems = [] ∧
      ems.filter Emit.isSuccess = [] ∧
      ems.filter Emit.isFailure = [] := by
  rcases hc with rfl | rfl | rfl
  · refine ⟨true, [.progressEmit 0 (some 0.35), .progressEmit 0 (some 0.1)],
      ?_, rfl, rfl, rfl⟩
    have h1 : stepEv defaultConfig env st (.frame 0 (some (earLandmarks 0.35))) =
        ({ st with hasDetectedOpenEyes := true }, [.progressEmit 0 (some 0.35)]) := by
      rw [step_face_cont defaultConfig env st 0 (earLandmarks 0.35) 0 (some 0.35) true
        hstop hproc (by rw [hcur]; exact evalBlink_open _)
        (by rw [hlct]; norm_num [defaultConfig])]
      norm_num
    have h2 : stepEv defaultConfig env ({ st with hasDetectedOpenEyes := true })
        (.frame 0 (some (earLandmarks 0.1))) =
        ({ st with hasDetectedOpenEyes := true, isChallengeProcessing := true,
                   settlePending := true }, [.progressEmit 0 (some 0.1)]) := by
      rw [step_face_pass defaultConfig env ({ st with hasDetectedOpenEyes := true }) 0
        (earLandmarks 0.1) 0 (some 0.1) true hstop hproc
        (by rw [show currentChallengeOf ({ st with hasDetectedOpenEyes := true }) =
            ChallengeType.BLINK from hcur]
            exact evalBlink_closed true)]
      norm_num
    rw [show passEvents ChallengeType.BLINK =
        [Ev.frame 0 (some (earLandmarks 0.35)), Ev.frame 0 (some (earLandmarks 0.1))]
        from rfl, runFrom_cons, h1]
    dsimp only
    rw [runFrom_cons, h2]
    dsimp only
    rw [runFrom_nil]
    rfl
  · refine ⟨st.hasDetectedOpenEyes, [.progressEmit 1 (some 0.8)], ?_, rfl, rfl, rfl⟩
    have h1 : stepEv defaultConfig env st (.frame 0 (some lmTurnLeft)) =
        ({ st with hasDetectedOpenEyes := st.hasDetectedOpenEyes,
                   isChallengeProcessing := true, settlePending := true },
         [.progressEmit 1 (some 0.8)]) := by
      rw [step_face_pass defaultConfig env st 0 lmTurnLeft 1 (some 0.8)
        st.hasDetectedOpenEyes hstop hproc (by rw [hcur]; exact evalTurnLeft _)]
      norm_num
    rw [show passEvents ChallengeType.TURN_LEFT = [Ev.frame 0 (some lmTurnLeft)] from rfl,
      runFrom_cons, h1]
    dsimp only
    rw [runFrom_nil]
    rfl
  · refine ⟨st.hasDetectedOpenEyes, [.progressEmit 1 (some (-0.8))], ?_, rfl, rfl, rfl⟩
    have h1 : stepEv defaultConfig env st (.frame 0 (some lmTurnRight)) =
        ({ st with hasDetectedOpenEyes := st.hasDetectedOpenEyes,
                   isChallengeProcessing := true, settlePending := true },
         [.progressEmit 1 (some (-0.8))]) := by
      rw [step_face_pass defaultConfig env st 0 lmTurnRight 1 (some (-0.8))
        st.hasDetectedOpenEyes hstop hproc (by rw [hcur]; exact evalTurnRight _)]
      norm_num
    rw [show passEvents ChallengeType.TURN_RIGHT = [Ev.frame 0 (some lmTurnRight)] from rfl,
      runFrom_cons, h1]
    dsimp only
    rw [runFrom_nil]
    rfl

/-- Running the remaining challenges of a session (passing frames plus
settle firings): every remaining challenge but the first is announced,
then PROCESSING, and the only terminal emission is the success carrying
the normalized descriptor. -/
theorem runSession (env : Env) (e : List ℝ) (hemb : env.embedding = some e) :
    ∀ (rest pre : List ChallengeType) (st : EngineState),
      (∀ c ∈ rest, c = .BLINK ∨ c = .TURN_LEFT ∨ c = .TURN_RIGHT) →
      st.challenges = pre ++ rest →
      st.currentChallengeIndex = pre.length →
      st.isStopped = false → st.isChallengeProcessing = false →
      st.lastChallengeTime = 0 → rest ≠ [] →
      challengeEventsOf (runFrom defaultConfig env st (segTrace rest)).2 =
        rest.tail ++ [.PROCESSING] ∧
      (runFrom defaultConfig env st (segTrace rest)).2.filter Emit.isSuccess =
        [.successEmit (normalizeEmbedding e)] ∧
      (runFrom defaultConfig env st (segTrace rest)).2.filter Emit.isFailure = [] := by
  intro rest
  induction rest with
  | nil => intro pre st _ _ _ _ _ _ hne; exact absurd rfl hne
  | cons c rest ih =>
      intro pre st hmem hch hidx hstop hproc hlct _
      have hcur : currentChallengeOf st = c := by
        rw [currentChallengeOf, hch, hidx,
          List.getD_append_right _ _ _ _ (le_refl _)]
        simp
      have hseg : segTrace (c :: rest) =
          passEvents c ++ (Ev.settleEv 0 :: segTrace rest) := by
        simp [segTrace]
      obtain ⟨b, ems, hrunseg, hce, hcs, hcf⟩ :=
        runSeg env c (hmem c (by simp)) st hstop hproc hcur hlct
      rw [hseg, runFrom_append, hrunseg]
      dsimp only
      rw [runFrom_cons]
      set stP : EngineState := ({ st with
        hasDetectedOpenEyes := b,
        isChallengeProcessing := true,
        settlePending := true } : EngineState) with hstP
      by_cases hrest : rest = []
      · subst hrest
        have hlen : stP.currentChallengeIndex + 1 ≥ stP.challenges.length := by
          show st.currentChallengeIndex + 1 ≥ st.challenges.length
          rw [hch, hidx]
          simp
        rw [step_settle_complete defaultConfig env stP 0 e rfl hlen hemb]
        dsimp only
        rw [show segTrace ([] : List ChallengeType) = [] from rfl, runFrom_nil]
        dsimp only
        refine ⟨?_, ?_, ?_⟩
        · simp only [challengeEventsOf] at hce ⊢
          rw [List.filterMap_append, hce]
          rfl
        · rw [List.filter_append, hcs]
          rfl
        · rw [List.filter_append, hcf]
          rfl
      · have hlen : stP.currentChallengeIndex + 1 < stP.challenges.length := by
          show st.currentChallengeIndex + 1 < st.challenges.length
          rw [hch, hidx]
          have hpos : 0 < rest.length := List.length_pos.mpr hrest
          simp only [List.length_append, List.length_cons]
          omega
        rw [step_settle_next defaultConfig env stP 0 rfl hlen]
        dsimp only
        have hnext : stP.challenges.getD (stP.currentChallengeIndex + 1)
            ChallengeType.PROCESSING = rest.getD 0 .PROCESSING := by
          show st.challenges.getD (st.currentChallengeIndex + 1) _ = _
          rw [hch, hidx, List.getD_append_right _ _ _ _ (by omega)]
          simp
        rw [hnext]
        set stN : EngineState := ({ stP with
          currentChallengeIndex := stP.currentChallengeIndex + 1,
          hasDetectedOpenEyes := false, settlePending := false,
          lastChallengeTime := 0, isChallengeProcessing := false } : EngineState) with hstN
        have hih := ih (pre ++ [c]) stN
          (fun x hx => hmem x (List.mem_cons_of_mem _ hx))
          (by show st.challenges = (pre ++ [c]) ++ rest
              rw [hch]
              simp)
          (by show st.currentChallengeIndex + 1 = (pre ++ [c]).length
              rw [hidx]
              simp)
          hstop rfl rfl hrest
        obtain ⟨hih1, hih2, hih3⟩ := hih
        have hresteq : rest.getD 0 ChallengeType.PROCESSING :: rest.tail = rest := by
          cases rest with
          | nil => exact absurd rfl hrest
          | cons a t => rfl
        refine ⟨?_, ?_, ?_⟩
        · simp only [challengeEventsOf] at hce hih1 ⊢
          rw [List.filterMap_append, List.filterMap_append, hce, hih1]
          conv_rhs => rw [show (c :: rest).tail = rest from rfl, ← hresteq]
          rfl
        · rw [List.filter_append, List.filter_append, hcs, hih2]
          rfl
        · rw [List.filter_append, List.filter_append, hcf, hih3]
          rfl

theorem gen_props : ∀ (coin : Bool) (j2 : Fin 3) (j1 : Fin 2),
    (generateChallenges coin j2 j1).length = 3 ∧
    ∀ c ∈ generateChallenges coin j2 j1,
      c = ChallengeType.BLINK ∨ c = .TURN_LEFT ∨ c = .TURN_RIGHT := by
  decide

theorem gen_shape (coin : Bool) (j2 : Fin 3) (j1 : Fin 2) :
    ∃ a b c, generateChallenges coin j2 j1 = [a, b, c] := by
  have hlen := (gen_props coin j2 j1).1
  rcases hgen : generateChallenges coin j2 j1 with _ | ⟨a, _ | ⟨b, _ | ⟨c, rest⟩⟩⟩
  · rw [hgen] at hlen; simp at hlen
  · rw [hgen] at hlen; simp at hlen
  · rw [hgen] at hlen; simp at hlen
  · have hr : rest = [] := by
      rw [hgen] at hlen
      simpa using hlen
    exact ⟨a, b, c, by rw [hr]⟩

/-- One full passing session from `start()`: the challenge notifications
are the generated challenges in order followed by PROCESSING, and the
only terminal emission is the success carrying the normalized
descriptor. -/
theorem session_run (env : Env) (e : List ℝ) (hemb : env.embedding = some e)
    (coin : Bool) (j2 : Fin 3) (j1 : Fin 2) :
    challengeEventsOf (runEngine defaultConfig env (sessionTrace coin j2 j1)).2 =
      generateChallenges coin j2 j1 ++ [.PROCESSING] ∧
    (runEngine defaultConfig env (sessionTrace coin j2 j1)).2.filter Emit.isSuccess =
      [.successEmit (normalizeEmbedding e)] ∧
    (runEngine defaultConfig env (sessionTrace coin j2 j1)).2.filter Emit.isFailure = [] := by
  obtain ⟨a, b, c, habc⟩ := gen_shape coin j2 j1
  have hmem := (gen_props coin j2 j1).2
  rw [habc] at hmem
  have hinit : stepEv defaultConfig env initState (.startEv coin j2 j1 0) =
      (startedState (generateChallenges coin j2 j1),
       [.challengeChanged ((generateChallenges coin j2 j1).getD 0 .PROCESSING)]) := rfl
  rw [show sessionTrace coin j2 j1 =
      Ev.startEv coin j2 j1 0 :: segTrace (generateChallenges coin j2 j1) from rfl,
    habc, runEngine, runFrom_cons]
  rw [habc] at hinit
  rw [hinit]
  dsimp only
  have hses := runSession env e hemb [a, b, c] [] (startedState [a, b, c])
    hmem rfl rfl rfl rfl rfl (by simp)
  obtain ⟨hs1, hs2, hs3⟩ := hses
  refine ⟨?_, ?_, ?_⟩
  · simp only [challengeEventsOf] at hs1 ⊢
    rw [List.filterMap_append, hs1]
    rfl
  · rw [List.filter_append, hs2]
    rfl
  · rw [List.filter_append, hs3]
    rfl

theorem sum_sq_map_div (v : List ℝ) (n : ℝ) :
    ((v.map fun x => x / n).map fun x => x ^ 2).sum =
      (v.map fun x => x ^ 2).sum / n ^ 2 := by
  induction v with
  | nil => simp
  | cons a t ih =>
      simp only [List.map_cons, List.sum_cons, ih]
      ring

theorem l2norm_normalizeEmbedding {e : List ℝ} (h : l2norm e > 1e-6) :
    l2norm (normalizeEmbedding e) = 1 := by
  have hpos : 0 < l2norm e := lt_trans (by norm_num) h
  rw [normalizeEmbedding, if_pos h]
  have hmap := sum_sq_map_div e (l2norm e)
  have hS : (e.map fun x => x ^ 2).sum = l2norm e ^ 2 :=
    (Real.sq_sqrt (sum_sq_nonneg e)).symm
  show Real.sqrt (((e.map fun x => x / l2norm e).map fun x => x ^ 2).sum) = 1
  rw [hmap, hS, div_self (by positivity), Real.sqrt_one]

theorem length_normalizeEmbedding (e : List ℝ) :
    (normalizeEmbedding e).length = e.length := by
  unfold normalizeEmbedding
  split <;> simp

/-! ### Claim C1 -/

/-- Claim C1 (amended): for every `start()` randomization, feeding
passing frames for each generated challenge in order yields exactly one
success event carrying the normalized descriptor — of length 128 and
unit norm whenever the raw embedding has length 128 and norm above
`1e-6` — no failure event, and exactly 4 challenge events: the three
generated challenges in order followed by the PROCESSING notification
emitted by `#completeLiveness`. -/
theorem c1_session_amended (coin : Bool) (j2 : Fin 3) (j1 : Fin 2) (e : List ℝ)
    (hlen : e.length = 128) (hnorm : l2norm e > 1e-6) :
    (runEngine defaultConfig ⟨some e⟩ (sessionTrace coin j2 j1)).2.filter Emit.isSuccess =
      [.successEmit (normalizeEmbedding e)] ∧
    (runEngine defaultConfig ⟨some e⟩ (sessionTrace coin j2 j1)).2.filter Emit.isFailure = [] ∧
    challengeEventsOf (runEngine defaultConfig ⟨some e⟩ (sessionTrace coin j2 j1)).2 =
      generateChallenges coin j2 j1 ++ [.PROCESSING] ∧
    (challengeEventsOf
      (runEngine defaultConfig ⟨some e⟩ (sessionTrace coin j2 j1)).2).length = 4 ∧
    (normalizeEmbedding e).length = 128 ∧
    l2norm (normalizeEmbedding e) = 1 := by
  have h := session_run ⟨some e⟩ e rfl coin j2 j1
  refine ⟨h.2.1, h.2.2, h.1, ?_, ?_, l2norm_normalizeEmbedding hnorm⟩
  · rw [h.1]
    simp [(gen_props coin j2 j1).1]
  · rw [length_normalizeEmbedding, hlen]

/-- Witness for C1 (amended) at a concrete randomization and the unit
embedding. -/
theorem c1_witness :
    (runEngine defaultConfig ⟨some oneHot128⟩
      (sessionTrace true 2 1)).2.filter Emit.isSuccess =
      [.successEmit (normalizeEmbedding oneHot128)] ∧
    (challengeEventsOf (runEngine defaultConfig ⟨some oneHot128⟩
      (sessionTrace true 2 1)).2).length = 4 ∧
    l2norm (normalizeEmbedding oneHot128) = 1 := by
  have h := c1_session_amended true 2 1 oneHot128 (by simp [oneHot128])
    (by rw [l2norm_oneHot]; norm_num)
  exact ⟨h.1, h.2.2.2.1, h.2.2.2.2.2⟩

/-- Counterexample for C1 as stated: a full passing session emits 4
challenge events (the PROCESSING notification of `#completeLiveness`
counts), not 3; and when the raw embedding has near-zero norm the
success descriptor is emitted un-normalized, so it need not be
unit-norm. -/
theorem c1_counterexample :
    (challengeEventsOf (runEngine defaultConfig ⟨some oneHot128⟩
      (sessionTrace true 2 1)).2).length = 4 ∧
    (4 : ℕ) ≠ 3 ∧
    (runEngine defaultConfig ⟨some zero128⟩
      (sessionTrace true 2 1)).2.filter Emit.isSuccess = [.successEmit zero128] ∧
    l2norm zero128 ≠ 1 := by
  have h1 := session_run ⟨some oneHot128⟩ oneHot128 rfl true 2 1
  have h2 := session_run ⟨some zero128⟩ zero128 rfl true 2 1
  have hz : normalizeEmbedding zero128 = zero128 := by
    rw [normalizeEmbedding, if_neg]
    rw [l2norm_zero128]
    norm_num
  refine ⟨?_, by norm_num, ?_, ?_⟩
  · rw [h1.1]
    rfl
  · rw [h2.2.1, hz]
  · rw [l2norm_zero128]
    norm_num

/-- Counterexample for C9 as stated: the 300 ms settle timeout scheduled
by a passed challenge is not cancelled by `stop()`.  In `dupTrace` the
last challenge passes after its timeout budget, a no-face frame then
fails the session (emitting FACE_NOT_FOUND and stopping the engine), and
the still-pending settle fires afterwards, completing the session and
emitting a success — two terminal events in one session, the second
after the session left its active state. -/
theorem c9_counterexample :
    (runEngine defaultConfig ⟨some oneHot128⟩ dupTrace).2.filter Emit.isTerminal =
      [.failureEmit .FACE_NOT_FOUND, .successEmit (normalizeEmbedding oneHot128)] ∧
    ((runEngine defaultConfig ⟨some oneHot128⟩ dupTrace).2.filter Emit.isTerminal).length
      = 2 := by
  have s1 : stepEv defaultConfig ⟨some oneHot128⟩ initState (.startEv true 2 1 0) =
      (awaitState, [.challengeChanged .BLINK]) := rfl
  have s2 : stepEv defaultConfig ⟨some oneHot128⟩ awaitState
      (.frame 0 (some (earLandmarks 0.35))) = (dupA1, [.progressEmit 0 (some 0.35)]) := by
    rw [step_face_cont defaultConfig ⟨some oneHot128⟩ awaitState 0 (earLandmarks 0.35)
      0 (some 0.35) true rfl rfl (evalBlink_open _)
      (by show ¬((0 : ℝ) - 0 > defaultConfig.challengeTimeout); norm_num [defaultConfig])]
    norm_num [dupA1, awaitState, initState]
  have s3 : stepEv defaultConfig ⟨some oneHot128⟩ dupA1
      (.frame 0 (some (earLandmarks 0.1))) = (dupA2, [.progressEmit 0 (some 0.1)]) := by
    rw [step_face_pass defaultConfig ⟨some oneHot128⟩ dupA1 0 (earLandmarks 0.1)
      0 (some 0.1) true rfl rfl
      (by rw [show currentChallengeOf dupA1 = ChallengeType.BLINK from rfl]
          exact evalBlink_closed true)]
    norm_num [dupA1, dupA2, awaitState, initState]
  have s4 : stepEv defaultConfig ⟨some oneHot128⟩ dupA2 (.settleEv 0) =
      (dupA3, [.challengeChanged .TURN_LEFT]) := by
    rw [step_settle_next defaultConfig ⟨some oneHot128⟩ dupA2 0 rfl (by decide)]
    rfl
  have s5 : stepEv defaultConfig ⟨some oneHot128⟩ dupA3 (.frame 0 (some lmTurnLeft)) =
      (dupA4, [.progressEmit 1 (some 0.8)]) := by
    rw [step_face_pass defaultConfig ⟨some oneHot128⟩ dupA3 0 lmTurnLeft 1 (some 0.8)
      false rfl rfl
      (by rw [show currentChallengeOf dupA3 = ChallengeType.TURN_LEFT from rfl,
            show dupA3.hasDetectedOpenEyes = false from rfl]
          exact evalTurnLeft false)]
    norm_num [dupA3, dupA4, awaitState, initState]
  have s6 : stepEv defaultConfig ⟨some oneHot128⟩ dupA4 (.settleEv 0) =
      (dupA5, [.challengeChanged .TURN_RIGHT]) := by
    rw [step_settle_next defaultConfig ⟨some oneHot128⟩ dupA4 0 rfl (by decide)]
    rfl
  have s7 : stepEv defaultConfig ⟨some oneHot128⟩ dupA5
      (.frame 6000 (some lmTurnRight)) = (dupA6, [.progressEmit 1 (some (-0.8))]) := by
    rw [step_face_pass defaultConfig ⟨some oneHot128⟩ dupA5 6000 lmTurnRight 1
      (some (-0.8)) false rfl rfl
      (by rw [show currentChallengeOf dupA5 = ChallengeType.TURN_RIGHT from rfl,
            show dupA5.hasDetectedOpenEyes = false from rfl]
          exact evalTurnRight false)]
    norm_num [dupA5, dupA6, awaitState, initState]
  have s8 : stepEv defaultConfig ⟨some oneHot128⟩ dupA6 (.frame 6010 none) =
      (dupA7, [.clearSurface, .failureEmit .FACE_NOT_FOUND]) := by
    rw [step_noface_timeout defaultConfig ⟨some oneHot128⟩ dupA6 6010 rfl
      (by show (6010 : ℝ) - 0 > defaultConfig.challengeTimeout; norm_num [defaultConfig])]
    rfl
  have s9 : stepEv defaultConfig ⟨some oneHot128⟩ dupA7 (.settleEv 6300) =
      (dupA8, [.clearSurface, .challengeChanged .PROCESSING,
               .successEmit (normalizeEmbedding oneHot128)]) := by
    rw [step_settle_complete defaultConfig ⟨some oneHot128⟩ dupA7 6300 oneHot128
      rfl (by decide) rfl]
    rfl
  have hrun : runEngine defaultConfig ⟨some oneHot128⟩ dupTrace =
      (dupA8,
       [.challengeChanged .BLINK, .progressEmit 0 (some 0.35), .progressEmit 0 (some 0.1),
        .challengeChanged .TURN_LEFT, .progressEmit 1 (some 0.8),
        .challengeChanged .TURN_RIGHT, .progressEmit 1 (some (-0.8)),
        .clearSurface, .failureEmit .FACE_NOT_FOUND,
        .clearSurface, .challengeChanged .PROCESSING,
        .successEmit (normalizeEmbedding oneHot128)]) := by
    simp only [runEngine, dupTrace]
    rw [runFrom_cons, s1]
    dsimp only
    rw [runFrom_cons, s2]
    dsimp only
    rw [runFrom_cons, s3]
    dsimp only
    rw [runFrom_cons, s4]
    dsimp only
    rw [runFrom_cons, s5]
    dsimp only
    rw [runFrom_cons, s6]
    dsimp only
    rw [runFrom_cons, s7]
    dsimp only
    rw [runFrom_cons, s8]
    dsimp only
    rw [runFrom_cons, s9]
    dsimp only
    rw [runFrom_nil]
    simp
  rw [hrun]
  exact ⟨rfl, rfl⟩

/-! ### Latch-origin machinery for claim C10 -/

theorem runEngine_snoc (cfg : Config) (env : Env) (es : List Ev) (e : Ev) :
    (runEngine cfg env (es ++ [e])).1 =
      (stepEv cfg env (runEngine cfg env es).1 e).1 := by
  simp [runEngine, runFrom_append, runFrom]

theorem noFaceFree_nil : noFaceFree [] := fun t h => (List.not_mem_nil _ h).elim

theorem startFree_nil : startFree [] := fun _ _ _ _ h => (List.not_mem_nil _ h).elim

theorem noFaceFree_snoc (es : List Ev) (e : Ev) (h : noFaceFree es)
    (he : ∀ t : ℝ, e ≠ Ev.frame t none) : noFaceFree (es ++ [e]) := by
  intro t hm
  rcases List.mem_append.mp hm with hm | hm
  · exact h t hm
  · exact absurd (List.mem_singleton.mp hm).symm (he t)

theorem startFree_snoc (es : List Ev) (e : Ev) (h : startFree es)
    (he : ∀ (coin : Bool) (j2 : Fin 3) (j1 : Fin 2) (t : ℝ),
      e ≠ Ev.startEv coin j2 j1 t) : startFree (es ++ [e]) := by
  intro coin j2 j1 t hm
  rcases List.mem_append.mp hm with hm | hm
  · exact h coin j2 j1 t hm
  · exact absurd (List.mem_singleton.mp hm).symm (he coin j2 j1 t)

theorem decomp_snoc (es e₁ : List Ev) (t : ℝ) (lm : Landmarks) (e₂ : List Ev) (e : Ev)
    (h : es = e₁ ++ Ev.frame t (some lm) :: e₂) :
    es ++ [e] = e₁ ++ Ev.frame t (some lm) :: (e₂ ++ [e]) := by
  rw [h]
  simp

/-- A re-entrant face frame leaves the state untouched. -/
theorem processChallenge_reentrant (cfg : Config) (now : ℝ) (st : EngineState)
    (lm : Landmarks) (hproc : st.isChallengeProcessing = true) :
    processChallenge cfg now st lm = (st, []) := by
  unfold processChallenge
  rw [if_pos (by rw [hproc])]

/-- The non-re-entrant body of `#processChallenge`, with its lets
flattened. -/
theorem processChallenge_eq (cfg : Config) (now : ℝ) (st : EngineState)
    (lm : Landmarks) (hproc : st.isChallengeProcessing = false) :
    processChallenge cfg now st lm =
      (if (evalChallenge cfg st.hasDetectedOpenEyes (currentChallengeOf st) lm).1 then
        ({ st with
            hasDetectedOpenEyes :=
              (evalChallenge cfg st.hasDetectedOpenEyes (currentChallengeOf st) lm).2.2.2,
            isChallengeProcessing := true,
            settlePending := true },
         [.progressEmit
            (max 0 (min (evalChallenge cfg st.hasDetectedOpenEyes
              (currentChallengeOf st) lm).2.1 1))
            (evalChallenge cfg st.hasDetectedOpenEyes (currentChallengeOf st) lm).2.2.1])
      else if now - st.lastChallengeTime > cfg.challengeTimeout then
        ({ st with
            hasDetectedOpenEyes :=
              (evalChallenge cfg st.hasDetectedOpenEyes (currentChallengeOf st) lm).2.2.2,
            isStopped := true,
            loopScheduled := false },
         [.progressEmit
            (max 0 (min (evalChallenge cfg st.hasDetectedOpenEyes
              (currentChallengeOf st) lm).2.1 1))
            (evalChallenge cfg st.hasDetectedOpenEyes (currentChallengeOf st) lm).2.2.1,
          .clearSurface, .failureEmit .CHALLENGE_TIMEOUT])
      else
        ({ st with
            hasDetectedOpenEyes :=
              (evalChallenge cfg st.hasDetectedOpenEyes (currentChallengeOf st) lm).2.2.2 },
         [.progressEmit
            (max 0 (min (evalChallenge cfg st.hasDetectedOpenEyes
              (currentChallengeOf st) lm).2.1 1))
            (evalChallenge cfg st.hasDetectedOpenEyes (currentChallengeOf st) lm).2.2.1])) := by
  unfold processChallenge
  rw [if_neg (by rw [hproc]; simp)]
  rfl

/-- `#processChallenge` never changes the challenge list or index. -/
theorem processChallenge_facts (cfg : Config) (now : ℝ) (st : EngineState)
    (lm : Landmarks) :
    (processChallenge cfg now st lm).1.currentChallengeIndex = st.currentChallengeIndex ∧
    (processChallenge cfg now st lm).1.challenges = st.challenges := by
  by_cases hproc : st.isChallengeProcessing = true
  · rw [processChallenge_reentrant cfg now st lm hproc]
    exact ⟨rfl, rfl⟩
  · rw [Bool.not_eq_true] at hproc
    rw [processChallenge_eq cfg now st lm hproc]
    split_ifs <;> exact ⟨rfl, rfl⟩

/-- The latch after an evaluated (non-re-entrant) face frame is exactly
the `newOpen` component of the metric evaluation. -/
theorem processChallenge_latch (cfg : Config) (now : ℝ) (st : EngineState)
    (lm : Landmarks) (hproc : st.isChallengeProcessing = false) :
    (processChallenge cfg now st lm).1.hasDetectedOpenEyes =
      (evalChallenge cfg st.hasDetectedOpenEyes (currentChallengeOf st) lm).2.2.2 := by
  rw [processChallenge_eq cfg now st lm hproc]
  split_ifs <;> rfl

/-- The only way an evaluated frame raises the re-entrancy flag is a
metric pass. -/
theorem processChallenge_pass_of_processing (cfg : Config) (now : ℝ) (st : EngineState)
    (lm : Landmarks) (hproc : st.isChallengeProcessing = false)
    (h : (processChallenge cfg now st lm).1.isChallengeProcessing = true) :
    (evalChallenge cfg st.hasDetectedOpenEyes (currentChallengeOf st) lm).1 = true := by
  by_contra hne
  rw [Bool.not_eq_true] at hne
  rw [processChallenge_eq cfg now st lm hproc, hne] at h
  simp only [Bool.false_eq_true, if_false] at h
  split_ifs at h <;> exact absurd (hproc.symm.trans h) (by simp)

/-- `#moveToNextChallenge` always clears the latch. -/
theorem moveToNext_latch (env : Env) (now : ℝ) (st : EngineState) :
    (moveToNextChallenge env now st).1.hasDetectedOpenEyes = false := by
  unfold moveToNextChallenge
  simp only
  split
  · unfold completeLiveness stopEngine
    cases env.embedding <;> rfl
  · rfl

/-- The `newOpen` component: unchanged unless the active challenge is
BLINK and the raw value is above the OPEN threshold. -/
theorem evalChallenge_newOpen (cfg : Config) (b : Bool) (c : ChallengeType)
    (lm : Landmarks) :
    (evalChallenge cfg b c lm).2.2.2 = b ∨
    (c = .BLINK ∧ minEAR lm > 0.3 ∧ (evalChallenge cfg b c lm).2.2.2 = true) := by
  cases c with
  | BLINK =>
      by_cases h : min (calculateEAR lm .left) (calculateEAR lm .right) > 0.3
      · refine Or.inr ⟨rfl, h, ?_⟩
        show (if min (calculateEAR lm EyeSide.left) (calculateEAR lm EyeSide.right) > 0.3
          then true else b) = true
        rw [if_pos h]
      · left
        show (if min (calculateEAR lm EyeSide.left) (calculateEAR lm EyeSide.right) > 0.3
          then true else b) = b
        rw [if_neg h]
  | TURN_LEFT =>
      left
      simp only [evalChallenge]
      split <;> rfl
  | TURN_RIGHT =>
      left
      simp only [evalChallenge]
      split <;> rfl
  | PROCESSING => exact Or.inl rfl

/-- A no-face frame delivered to an active engine always clears the
latch. -/
theorem noface_latch (cfg : Config) (env : Env) (st : EngineState) (now : ℝ)
    (hstop : st.isStopped = false) :
    (stepEv cfg env st (.frame now none)).1.hasDetectedOpenEyes = false := by
  by_cases hto : now - st.lastChallengeTime > cfg.challengeTimeout
  · rw [step_noface_timeout cfg env st now hstop hto]
  · rw [step_noface_ok cfg env st now hstop hto]

/-- A face frame delivered to an active engine goes to
`#processChallenge`. -/
theorem step_frame_face (cfg : Config) (env : Env) (st : EngineState) (now : ℝ)
    (lm : Landmarks) (hstop : st.isStopped = false) :
    stepEv cfg env st (.frame now (some lm)) = processChallenge cfg now st lm := by
  simp [stepEv, onFaceMeshResults, hstop]

/-- A passing BLINK evaluation means the raw value is below the closed
threshold while the latch (old or freshly set) is true. -/
theorem evalChallenge_blink_pass (cfg : Config) (b : Bool) (lm : Landmarks)
    (h : (evalChallenge cfg b .BLINK lm).1 = true) :
    minEAR lm < cfg.blinkEARThreshold ∧ (minEAR lm > 0.3 ∨ b = true) := by
  have h2 : (if min (calculateEAR lm EyeSide.left) (calculateEAR lm EyeSide.right) <
      cfg.blinkEARThreshold then
        (if min (calculateEAR lm EyeSide.left) (calculateEAR lm EyeSide.right) > 0.3
          then true else b)
      else false) = true := h
  by_cases hc : min (calculateEAR lm .left) (calculateEAR lm .right) <
      cfg.blinkEARThreshold
  · rw [if_pos hc] at h2
    refine ⟨hc, ?_⟩
    by_cases ho : min (calculateEAR lm .left) (calculateEAR lm .right) > 0.3
    · exact Or.inl ho
    · rw [if_neg ho] at h2
      exact Or.inr h2
  · rw [if_neg hc] at h2
    exact absurd h2 (Bool.false_ne_true)

/-- Whenever the eyes-seen-open latch is set in a running engine, some
face frame with raw value above the OPEN threshold was evaluated during
the current BLINK challenge, with no no-face frame and no start event
after it, and the challenge has not advanced since. -/
theorem latch_origin (cfg : Config) (env : Env) :
    ∀ es : List Ev,
      (runEngine cfg env es).1.hasDetectedOpenEyes = true →
      (runEngine cfg env es).1.isStopped = true ∨
      ∃ (e₁ : List Ev) (t : ℝ) (lm : Landmarks) (e₂ : List Ev),
        es = e₁ ++ Ev.frame t (some lm) :: e₂ ∧
        minEAR lm > 0.3 ∧ noFaceFree e₂ ∧ startFree e₂ ∧
        (runEngine cfg env e₁).1.isStopped = false ∧
        (runEngine cfg env e₁).1.isChallengeProcessing = false ∧
        currentChallengeOf (runEngine cfg env e₁).1 = .BLINK ∧
        (runEngine cfg env e₁).1.currentChallengeIndex =
          (runEngine cfg env es).1.currentChallengeIndex ∧
        (runEngine cfg env e₁).1.challenges = (runEngine cfg env es).1.challenges := by
  intro es
  induction es using List.reverseRecOn with
  | nil =>
      intro h
      simp [runEngine, runFrom, initState] at h
  | append_singleton es e ih =>
      intro h
      rw [runEngine_snoc] at h
      set S := (runEngine cfg env es).1 with hS
      cases e with
      | startEv coin j2 j1 t => exact absurd h Bool.false_ne_true
      | stopEv =>
          left
          rw [runEngine_snoc, ← hS]
          rfl
      | settleEv t =>
          by_cases hsp : S.settlePending = true
          · exfalso
            rw [show stepEv cfg env S (.settleEv t) = settleFire env t S from rfl,
              settleFire, if_pos (by rw [hsp]), moveToNext_latch] at h
            exact Bool.false_ne_true h
          · rw [Bool.not_eq_true] at hsp
            rw [step_settle_idle cfg env S t hsp] at h
            rcases ih h with hstop2 | ⟨e₁, t', lm', e₂, heq, hopen, hnf, hsf,
              h1, h2, h3, h4, h5⟩
            · left
              rw [runEngine_snoc, ← hS, step_settle_idle cfg env S t hsp]
              exact hstop2
            · right
              refine ⟨e₁, t', lm', e₂ ++ [.settleEv t],
                decomp_snoc es e₁ t' lm' e₂ _ heq, hopen,
                noFaceFree_snoc _ _ hnf (fun t'' h'' => Ev.noConfusion h''),
                startFree_snoc _ _ hsf (fun c j2 j1 t'' h'' => Ev.noConfusion h''),
                h1, h2, h3, ?_, ?_⟩
              · rw [runEngine_snoc, ← hS, step_settle_idle cfg env S t hsp]
                exact h4
              · rw [runEngine_snoc, ← hS, step_settle_idle cfg env S t hsp]
                exact h5
      | frame t faces =>
          by_cases hstop : S.isStopped = true
          · left
            rw [runEngine_snoc, ← hS, step_frame_stopped cfg env S t faces hstop]
            exact hstop
          · rw [Bool.not_eq_true] at hstop
            cases faces with
            | none =>
                exfalso
                rw [noface_latch cfg env S t hstop] at h
                exact Bool.false_ne_true h
            | some lm =>
                rw [step_frame_face cfg env S t lm hstop] at h
                by_cases hproc : S.isChallengeProcessing = true
                · rw [processChallenge_reentrant cfg t S lm hproc] at h
                  rcases ih h with hstop2 | ⟨e₁, t', lm', e₂, heq, hopen, hnf, hsf,
                    h1, h2, h3, h4, h5⟩
                  · exact absurd hstop2 (by rw [hstop]; simp)
                  · right
                    refine ⟨e₁, t', lm', e₂ ++ [.frame t (some lm)],
                      decomp_snoc es e₁ t' lm' e₂ _ heq, hopen,
                      noFaceFree_snoc _ _ hnf (by intro t''; simp),
                      startFree_snoc _ _ hsf (by intro c j2 j1 t''; simp),
                      h1, h2, h3, ?_, ?_⟩
                    · rw [runEngine_snoc, ← hS, step_frame_face cfg env S t lm hstop,
                        processChallenge_reentrant cfg t S lm hproc]
                      exact h4
                    · rw [runEngine_snoc, ← hS, step_frame_face cfg env S t lm hstop,
                        processChallenge_reentrant cfg t S lm hproc]
                      exact h5
                · rw [Bool.not_eq_true] at hproc
                  rw [processChallenge_latch cfg t S lm hproc] at h
                  rcases evalChallenge_newOpen cfg S.hasDetectedOpenEyes
                      (currentChallengeOf S) lm with hsame | ⟨hblink, hopen, _⟩
                  · rw [hsame] at h
                    rcases ih h with hstop2 | ⟨e₁, t', lm', e₂, heq, hopen', hnf, hsf,
                      h1, h2, h3, h4, h5⟩
                    · exact absurd hstop2 (by rw [hstop]; simp)
                    · right
                      refine ⟨e₁, t', lm', e₂ ++ [.frame t (some lm)],
                        decomp_snoc es e₁ t' lm' e₂ _ heq, hopen',
                        noFaceFree_snoc _ _ hnf (by intro t''; simp),
                        startFree_snoc _ _ hsf (by intro c j2 j1 t''; simp),
                        h1, h2, h3, ?_, ?_⟩
                      · rw [runEngine_snoc, ← hS, step_frame_face cfg env S t lm hstop,
                          (processChallenge_facts cfg t S lm).1]
                        exact h4
                      · rw [runEngine_snoc, ← hS, step_frame_face cfg env S t lm hstop,
                          (processChallenge_facts cfg t S lm).2]
                        exact h5
                  · right
                    refine ⟨es, t, lm, [], by simp, hopen, noFaceFree_nil,
                      startFree_nil, hstop, hproc, hblink, ?_, ?_⟩
                    · rw [runEngine_snoc, ← hS, step_frame_face cfg env S t lm hstop,
                        (processChallenge_facts cfg t S lm).1]
                    · rw [runEngine_snoc, ← hS, step_frame_face cfg env S t lm hstop,
                        (processChallenge_facts cfg t S lm).2]

/-! ### Claim C10 -/

/-- Claim C10: every evaluated no-face frame resets the eyes-seen-open
latch; the latch is likewise reset when the machine advances past a
challenge and on every `start()`; consequently a Blink challenge can
only pass when the open observation (min EAR above 0.3) and the closed
observation (min EAR below the configured threshold) both occur within
the same challenge with no intervening no-face frame. -/
theorem c10_latch_resets (cfg : Config) (env : Env) :
    (∀ (st : EngineState) (t : ℝ), st.isStopped = false →
      (stepEv cfg env st (.frame t none)).1.hasDetectedOpenEyes = false) ∧
    (∀ (st : EngineState) (t : ℝ), st.settlePending = true →
      (stepEv cfg env st (.settleEv t)).1.hasDetectedOpenEyes = false) ∧
    (∀ (st : EngineState) (coin : Bool) (j2 : Fin 3) (j1 : Fin 2) (t : ℝ),
      (stepEv cfg env st (.startEv coin j2 j1 t)).1.hasDetectedOpenEyes = false) ∧
    (∀ (es : List Ev) (t : ℝ) (lm : Landmarks),
      (runEngine cfg env es).1.isChallengeProcessing = false →
      (stepEv cfg env (runEngine cfg env es).1
        (.frame t (some lm))).1.isChallengeProcessing = true →
      currentChallengeOf (runEngine cfg env es).1 = .BLINK →
      minEAR lm < cfg.blinkEARThreshold ∧
      (minEAR lm > 0.3 ∨
        ∃ (e₁ : List Ev) (t' : ℝ) (lm' : Landmarks) (e₂ : List Ev),
          es = e₁ ++ Ev.frame t' (some lm') :: e₂ ∧
          minEAR lm' > 0.3 ∧ noFaceFree e₂ ∧ startFree e₂ ∧
          currentChallengeOf (runEngine cfg env e₁).1 = .BLINK ∧
          (runEngine cfg env e₁).1.currentChallengeIndex =
            (runEngine cfg env es).1.currentChallengeIndex ∧
          (runEngine cfg env e₁).1.challenges =
            (runEngine cfg env es).1.challenges)) := by
  refine ⟨fun st t hstop => noface_latch cfg env st t hstop,
    fun st t hsp => ?_, fun st coin j2 j1 t => rfl,
    fun es t lm hproc hpass hcur => ?_⟩
  · rw [show stepEv cfg env st (.settleEv t) = settleFire env t st from rfl,
      settleFire, if_pos (by rw [hsp]), moveToNext_latch]
  · set S := (runEngine cfg env es).1 with hS
    by_cases hstop : S.isStopped = true
    · rw [step_frame_stopped cfg env S t (some lm) hstop] at hpass
      exact absurd (hproc.symm.trans hpass) (by simp)
    · rw [Bool.not_eq_true] at hstop
      rw [step_frame_face cfg env S t lm hstop] at hpass
      have hev := processChallenge_pass_of_processing cfg t S lm hproc hpass
      rw [hcur] at hev
      obtain ⟨hclosed, hor⟩ := evalChallenge_blink_pass cfg S.hasDetectedOpenEyes lm hev
      refine ⟨hclosed, ?_⟩
      rcases hor with hopen | hlatch
      · exact Or.inl hopen
      · rcases latch_origin cfg env es hlatch with hstop2 | ⟨e₁, t', lm', e₂, heq,
          hopen', hnf, hsf, _, _, h3, h4, h5⟩
        · exact absurd hstop2 (by rw [hstop]; simp)
        · exact Or.inr ⟨e₁, t', lm', e₂, heq, hopen', hnf, hsf, h3, h4, h5⟩

/-- Witness for C10: `start()` clears the latch, and a blink pass after
an open frame in a concrete two-event session locates the open
observation. -/
theorem c10_witness :
    (stepEv defaultConfig ⟨none⟩ initState
      (.startEv true 2 1 0)).1.hasDetectedOpenEyes = false ∧
    minEAR (earLandmarks 0.1) < defaultConfig.blinkEARThreshold ∧
    (minEAR (earLandmarks 0.1) > 0.3 ∨
      ∃ (e₁ : List Ev) (t' : ℝ) (lm' : Landmarks) (e₂ : List Ev),
        [Ev.startEv true 2 1 0, Ev.frame 0 (some (earLandmarks 0.35))] =
          e₁ ++ Ev.frame t' (some lm') :: e₂ ∧
        minEAR lm' > 0.3 ∧ noFaceFree e₂ ∧ startFree e₂ ∧
        currentChallengeOf (runEngine defaultConfig ⟨none⟩ e₁).1 = .BLINK ∧
        (runEngine defaultConfig ⟨none⟩ e₁).1.currentChallengeIndex =
          (runEngine defaultConfig ⟨none⟩
            [Ev.startEv true 2 1 0,
             Ev.frame 0 (some (earLandmarks 0.35))]).1.currentChallengeIndex ∧
        (runEngine defaultConfig ⟨none⟩ e₁).1.challenges =
          (runEngine defaultConfig ⟨none⟩
            [Ev.startEv true 2 1 0,
             Ev.frame 0 (some (earLandmarks 0.35))]).1.challenges) := by
  have hthm := c10_latch_resets defaultConfig ⟨none⟩
  have a1 : stepEv defaultConfig ⟨none⟩ initState (.startEv true 2 1 0) =
      (awaitState, [.challengeChanged .BLINK]) := rfl
  have a2 : stepEv defaultConfig ⟨none⟩ awaitState
      (.frame 0 (some (earLandmarks 0.35))) = (dupA1, [.progressEmit 0 (some 0.35)]) := by
    rw [step_face_cont defaultConfig ⟨none⟩ awaitState 0 (earLandmarks 0.35)
      0 (some 0.35) true rfl rfl (evalBlink_open _)
      (by show ¬((0 : ℝ) - 0 > defaultConfig.challengeTimeout); norm_num [defaultConfig])]
    norm_num [dupA1, awaitState, initState]
  have hrun : (runEngine defaultConfig ⟨none⟩
      [Ev.startEv true 2 1 0, Ev.frame 0 (some (earLandmarks 0.35))]).1 = dupA1 := by
    rw [runEngine, runFrom_cons, a1]
    dsimp only
    rw [runFrom_cons, a2]
    dsimp only
    rw [runFrom_nil]
  have a3 : stepEv defaultConfig ⟨none⟩ dupA1
      (.frame 0 (some (earLandmarks 0.1))) = (dupA2, [.progressEmit 0 (some 0.1)]) := by
    rw [step_face_pass defaultConfig ⟨none⟩ dupA1 0 (earLandmarks 0.1)
      0 (some 0.1) true rfl rfl
      (by rw [show currentChallengeOf dupA1 = ChallengeType.BLINK from rfl]
          exact evalBlink_closed true)]
    norm_num [dupA1, dupA2, awaitState, initState]
  have hmain := hthm.2.2.2 [Ev.startEv true 2 1 0, Ev.frame 0 (some (earLandmarks 0.35))]
    0 (earLandmarks 0.1)
    (by rw [hrun]; rfl) (by rw [hrun, a3]; rfl) (by rw [hrun]; rfl)
  exact ⟨hthm.2.2.1 initState true 2 1 0, hmain.1, hmain.2⟩

end Liveness
